import Mathlib

/-! # gopkg-proxy: a vanity import path server

A shallow embedding of `main.go` and a verification of the properties its
specification states.

* Go strings are modelled by `String`; a character outside ASCII stands for the
  bytes of its UTF-8 encoding (the only place where bytes matter is the
  percent-encoding done by the URL normaliser).
* The package-level variables `packages`, `hostHeader` and `hostOverride` are
  collected in the record `Globals`, which every handler receives explicitly.
  Each handler is given twice: as the response it produces (`homeHandler`,
  `packageHandler`) and as the sequence of its statements acting on the
  package-level variables and on the response writer (`homeHandler.run`,
  `packageHandler.run`).
* A `*http.Request` is modelled by the four things the handlers read from it,
  `r.URL.Path`, `r.URL.Query()`, `r.Header.Get` and `r.Host`, and by the one thing
  the router reads, `r.URL.EscapedPath()`.
* The three templates are parsed by `html/template`, whose escaper rewrites every
  action according to the HTML context it stands in.  The rendering functions
  below are the templates with each action replaced by the escaped value; the
  escapers follow `html/template` (`html.go`, `url.go`).
* The router is `http.ServeMux` with the two patterns `main` registers.  It
  first brings the request path into clean form, answers a request whose path
  is not in clean form with a redirect of its own, and otherwise matches the
  two patterns against the path.
-/

set_option maxRecDepth 100000

namespace GopkgProxy

/-! ## Data model -/

/-- Package represents a Go package mapping (`type Package struct`). -/
structure Package where
  Path : String
  Repo : String
  VCS : String
  deriving DecidableEq, Repr

/-- The compiled-in package mappings (`var packages`). -/
def packages : List Package :=
  [ { Path := "/go-utils", Repo := "https://github.com/aykhans/go-utils", VCS := "git" },
    { Path := "/sarin", Repo := "https://github.com/aykhans/sarin", VCS := "git" } ]

/-- The view-model of the home template (`type HomeData struct`). -/
structure HomeData where
  Domain : String
  Packages : List Package
  Count : Nat

/-- The view-model of the vanity template (`type VanityData struct`). -/
structure VanityData where
  Domain : String
  Path : String
  Repo : String
  VCS : String

/-- The view-model of the redirect template (`type RedirectData struct`). -/
structure RedirectData where
  Domain : String
  Path : String

/-- The package-level variables of `main.go`: the registry and the two
configuration values read from the environment at start-up. -/
structure Globals where
  packages : List Package
  hostHeader : String
  hostOverride : String

/-- The function `getEnvOrDefault`; `getenv` stands for `os.Getenv`, which returns
the empty string for a variable that is not set. -/
def getEnvOrDefault (getenv : String → String) (key defaultValue : String) : String :=
  if getenv key ≠ "" then getenv key else defaultValue

/-- The values the package-level variables are initialised with. -/
def initGlobals (getenv : String → String) : Globals :=
  { packages := packages
    hostHeader := getEnvOrDefault getenv "HOST_HEADER" "X-Forwarded-Host"
    hostOverride := getenv "HOST" }

/-- What a handler and the router read from a `*http.Request`.

* `Path` is `r.URL.Path`, the decoded path;
* `Query` is `r.URL.Query()`, the parsed key/value pairs in the order they appear;
* `Header k` is `r.Header.Get(k)`: the first value of header `k`, or `""`;
* `Host` is `r.Host`;
* `EscapedPath` is `r.URL.EscapedPath()`, the path in its percent-encoded form,
  which the router dispatches on; it is the path itself when the path has no
  character that is percent-encoded. -/
structure Request where
  Path : String
  Query : List (String × String)
  Header : String → String
  Host : String
  EscapedPath : String := Path

/-- The method `url.Values.Get`: the first value associated with the key, or the
empty string when there is none. -/
def Values.Get (q : List (String × String)) (key : String) : String :=
  match q.find? (fun kv => kv.1 == key) with
  | some kv => kv.2
  | none => ""

/-- What a handler leaves in its `http.ResponseWriter`: the status code, the
headers it set and the body it wrote. -/
structure Response where
  status : Nat
  header : List (String × String)
  body : String
  deriving DecidableEq, Repr

/-! ## Host resolution -/

/-- The function `getHost`. -/
def getHost (g : Globals) (r : Request) : String :=
  if g.hostOverride ≠ "" then g.hostOverride
  else if r.Header g.hostHeader ≠ "" then r.Header g.hostHeader
  else r.Host

/-! ## Registry lookup -/

/-- The lookup loop of `packageHandler`: the first entry whose `Path` equals the
request path, `none` for the `nil` pointer. -/
def findPackage : List Package → String → Option Package
  | [], _ => none
  | p :: ps, path => if p.Path = path then some p else findPackage ps path

/-! ## The escapers of `html/template` -/

/-- The table `htmlReplacementTable`: the replacement of a rune, `none` where the
table has no entry. -/
def htmlReplacementTable (r : Char) : Option String :=
  if r = Char.ofNat 0 then some "\uFFFD"
  else if r = Char.ofNat 34 then some "&#34;"
  else if r = '&' then some "&amp;"
  else if r = Char.ofNat 39 then some "&#39;"
  else if r = '+' then some "&#43;"
  else if r = '<' then some "&lt;"
  else if r = '>' then some "&gt;"
  else none

/-- One step of `htmlReplacer`: a rune with a table entry is replaced, every other
rune is copied. -/
def htmlReplaceRune (r : Char) : List Char :=
  match htmlReplacementTable r with
  | some repl => repl.data
  | none => [r]

/-- The function `htmlReplacer` with `htmlReplacementTable` and `badRunes = true`. -/
def htmlReplacer (s : String) : String :=
  ⟨s.data.flatMap htmlReplaceRune⟩

/-- The escaper `_html_template_htmlescaper` on a plain string (text nodes). -/
def htmlEscaper (s : String) : String := htmlReplacer s

/-- The escaper `_html_template_attrescaper` on a plain string (quoted attribute
values). -/
def attrEscaper (s : String) : String := htmlReplacer s

/-- The escaper `_html_template_rcdataescaper` on a plain string (`<title>`). -/
def rcdataEscaper (s : String) : String := htmlReplacer s

/-- The bytes of the UTF-8 encoding of a character. -/
def utf8Bytes (c : Char) : List Nat :=
  let n := c.toNat
  if n < 0x80 then [n]
  else if n < 0x800 then [0xC0 + n / 64, 0x80 + n % 64]
  else if n < 0x10000 then [0xE0 + n / 4096, 0x80 + n / 64 % 64, 0x80 + n % 64]
  else [0xF0 + n / 262144, 0x80 + n / 4096 % 64, 0x80 + n / 64 % 64, 0x80 + n % 64]

/-- A lower-case hexadecimal digit. -/
def hexDigit (n : Nat) : Char :=
  if n < 10 then Char.ofNat (48 + n) else Char.ofNat (87 + n)

/-- The format `%%%02x` applied to one byte. -/
def pctEncodeByte (b : Nat) : List Char :=
  ['%', hexDigit (b / 16 % 16), hexDigit (b % 16)]

/-- The percent-encoding of every byte of a character. -/
def pctEncode (c : Char) : List Char :=
  (utf8Bytes c).flatMap pctEncodeByte

/-- The function `isHex`. -/
def isHex (c : Char) : Bool :=
  ('0' ≤ c && c ≤ '9') || ('a' ≤ c && c ≤ 'f') || ('A' ≤ c && c ≤ 'F')

/-- The `switch` of `processURLOnto`: whether the byte `c`, followed by `rest`, is
copied (`continue`) rather than percent-encoded. -/
def urlKeep (norm : Bool) (c : Char) (rest : List Char) : Bool :=
  if c ∈ ['!', '#', '$', '&', '*', '+', ',', '/', ':', ';', '=', '?', '@', '[', ']'] then norm
  else if c ∈ ['-', '.', '_', '~'] then true
  else if c = '%' then
    norm && (match rest with
      | a :: b :: _ => isHex a && isHex b
      | _ => false)
  else ('a' ≤ c && c ≤ 'z') || ('A' ≤ c && c ≤ 'Z') || ('0' ≤ c && c ≤ '9')

/-- The function `processURLOnto`: the normalised or escaped URL. -/
def processURLOnto (norm : Bool) : List Char → List Char
  | [] => []
  | c :: rest => (if urlKeep norm c rest then [c] else pctEncode c) ++ processURLOnto norm rest

/-- The escaper `_html_template_urlnormalizer` on a plain string. -/
def urlNormalizer (s : String) : String :=
  ⟨processURLOnto true s.data⟩


/-- The rune a rune is folded to when a string is compared with an ASCII string by
`strings.EqualFold`: an upper-case ASCII letter and its lower-case letter are
equal, and so are the long s and `s`, the Kelvin sign and `k`. -/
def foldRune (c : Char) : Char :=
  if 'A' ≤ c ∧ c ≤ 'Z' then Char.ofNat (c.toNat + 32)
  else if c = Char.ofNat 0x17F then 's'
  else if c = Char.ofNat 0x212A then 'k'
  else c

/-- The function `strings.EqualFold` where the second string is ASCII. -/
def equalFold (s t : String) : Bool :=
  s.data.map foldRune == t.data.map foldRune

/-- The function `isSafeURL`: a URL is unsafe when what precedes its first colon
has no slash and is not one of the schemes `http`, `https`, `mailto`. -/
def isSafeURL (s : String) : Bool :=
  if ':' ∈ s.data then
    let protocol : String := ⟨s.data.takeWhile (fun c => c ≠ ':')⟩
    if '/' ∉ protocol.data then
      equalFold protocol "http" || equalFold protocol "https" || equalFold protocol "mailto"
    else true
  else true

/-- The escaper `_html_template_urlfilter` on a plain string. -/
def urlFilter (s : String) : String :=
  if isSafeURL s then s else "#ZgotmplZ"

/-- The decimal text `html/template` prints an `int` with. -/
def formatInt (n : Nat) : String := toString n

/-! ## The templates

Each function is the output of executing the template of the same name, parsed
by `html/template`, on its data.  The escapers of an action are those of its
context:

* inside a quoted `id` attribute and inside the quoted `content` attribute of the
  two `meta` elements of the vanity page: `attrEscaper`;
* inside the quoted `content` attribute of the refresh directive, after the text
  `url=`: `urlFilter`, then `attrEscaper` (the text after `url=` in the content
  of a `meta` element is a URL for the escaper, which filters every action there
  and does not normalise it);
* inside a quoted `href` (a URL attribute) after the text `https://pkg.go.dev/`:
  `urlNormalizer`, then `attrEscaper`;
* at the start of a quoted `href`: `urlFilter`, `urlNormalizer`, then `attrEscaper`;
* in a text node: `htmlEscaper`; in `<title>`: `rcdataEscaper`;
* inside the JavaScript string of the `onclick` attribute the action is the `int`
  index; the JavaScript string escaper copies decimal digits, then `attrEscaper`
  is applied.

The tokens `{/dir}`, `{file}` and `{line}` have single braces: they are text of the
template, not actions. -/

/-- The constant `vanityTemplate`, executed on `data`. -/
def vanityTemplate (data : VanityData) : String :=
  "<!DOCTYPE html>\n<html>\n<head>\n    " ++
  "<meta name=\"go-import\" content=\"" ++
  attrEscaper data.Domain ++ attrEscaper data.Path ++ " " ++ attrEscaper data.VCS ++ " " ++
  attrEscaper data.Repo ++ "\">" ++
  "\n    " ++
  "<meta name=\"go-source\" content=\"" ++
  attrEscaper data.Domain ++ attrEscaper data.Path ++ " " ++ attrEscaper data.Repo ++ " " ++
  attrEscaper data.Repo ++ "/tree/master\x7b/dir\x7d " ++
  attrEscaper data.Repo ++ "/blob/master\x7b/dir\x7d/\x7bfile\x7d#L\x7bline\x7d" ++ "\">" ++
  "\n</head>\n<body>\n    go get " ++
  htmlEscaper data.Domain ++ htmlEscaper data.Path ++
  "\n</body>\n</html>"

/-- The constant `redirectTemplate`, executed on `data`. -/
def redirectTemplate (data : RedirectData) : String :=
  "<!DOCTYPE html>\n<html>\n<head>\n" ++
  "    <link rel=\"icon\" href=\"https://pkg.go.dev/static/shared/icon/favicon.ico\">\n    " ++
  "<meta http-equiv=\"refresh\" content=\"0; url=" ++ "https://pkg.go.dev/" ++
  attrEscaper (urlFilter data.Domain) ++ attrEscaper (urlFilter data.Path) ++ "\">" ++
  "\n</head>\n<body>\n    Redirecting to " ++
  "<a href=\"" ++ "https://pkg.go.dev/" ++
  attrEscaper (urlNormalizer data.Domain) ++ attrEscaper (urlNormalizer data.Path) ++ "\">" ++
  "pkg.go.dev/" ++ htmlEscaper data.Domain ++ htmlEscaper data.Path ++
  "</a>...\n</body>\n</html>"

/-- The concatenation of the given pieces of text. -/
def text (pieces : List String) : String :=
  pieces.foldr (fun a b => a ++ b) ""

/-- The text of `homeTemplate` before the `<title>` action. -/
def homeHead : String :=
  text [
    "<!DOCTYPE html>\n",
    "<html>\n",
    "<head>\n",
    "    <meta charset=\"utf-8\">\n",
    "    <link rel=\"icon\" href=\"https://pkg.go.dev/static/shared/icon/favicon.ico\">\n",
    "    <title>Go Packages - " ]

/-- The text of `homeTemplate` between the `<title>` action and the `range` action:
the style sheet and the heading. -/
def homeStyle : String :=
  text [
    "</title>\n",
    "    <style>\n",
    "        body \x7b\n",
    "            font-family: -apple-system, BlinkMacSystemFont, \"Segoe UI\", Roboto, \"Helvetica Neue\", Arial, sans-serif;\n",
    "            max-width: 800px;\n",
    "            margin: 50px auto;\n",
    "            padding: 20px;\n",
    "            line-height: 1.6;\n",
    "            color: #333;\n",
    "        \x7d\n",
    "        h1 \x7b\n",
    "            color: #00ADD8;\n",
    "            border-bottom: 2px solid #00ADD8;\n",
    "            padding-bottom: 10px;\n",
    "        \x7d\n",
    "        .package \x7b\n",
    "            background: #f5f5f5;\n",
    "            border-left: 4px solid #00ADD8;\n",
    "            padding: 15px;\n",
    "            margin: 15px 0;\n",
    "            border-radius: 4px;\n",
    "        \x7d\n",
    "        .package-name \x7b\n",
    "            font-family: monospace;\n",
    "            font-size: 1.1em;\n",
    "            color: #00ADD8;\n",
    "            font-weight: bold;\n",
    "            text-decoration: none;\n",
    "        \x7d\n",
    "        .package-name:hover \x7b\n",
    "            text-decoration: underline;\n",
    "        \x7d\n",
    "        .external-icon \x7b\n",
    "            margin-left: 5px;\n",
    "            vertical-align: middle;\n",
    "        \x7d\n",
    "        .package-repo \x7b\n",
    "            margin-top: 5px;\n",
    "            font-size: 0.9em;\n",
    "        \x7d\n",
    "        .package-repo a \x7b\n",
    "            color: #666;\n",
    "            text-decoration: none;\n",
    "        \x7d\n",
    "        .package-repo a:hover \x7b\n",
    "            text-decoration: underline;\n",
    "        \x7d\n",
    "        .install-cmd-wrapper \x7b\n",
    "            position: relative;\n",
    "            margin-top: 8px;\n",
    "            display: flex;\n",
    "            align-items: center;\n",
    "        \x7d\n",
    "        .install-cmd \x7b\n",
    "            background: #2d2d2d;\n",
    "            color: #f8f8f2;\n",
    "            padding: 10px;\n",
    "            padding-right: 45px;\n",
    "            border-radius: 4px;\n",
    "            font-family: monospace;\n",
    "            overflow-x: auto;\n",
    "            flex: 1;\n",
    "        \x7d\n",
    "        .copy-btn \x7b\n",
    "            position: absolute;\n",
    "            right: 8px;\n",
    "            background: #444;\n",
    "            border: none;\n",
    "            border-radius: 4px;\n",
    "            padding: 6px 10px;\n",
    "            cursor: pointer;\n",
    "            color: #f8f8f2;\n",
    "            font-size: 14px;\n",
    "            transition: background 0.2s;\n",
    "            display: flex;\n",
    "            align-items: center;\n",
    "            justify-content: center;\n",
    "            height: 28px;\n",
    "        \x7d\n",
    "        .copy-btn:hover \x7b\n",
    "            background: #555;\n",
    "        \x7d\n",
    "        .copy-btn:active \x7b\n",
    "            background: #00ADD8;\n",
    "        \x7d\n",
    "        .copy-btn.copied \x7b\n",
    "            background: #00ADD8;\n",
    "        \x7d\n",
    "        .footer \x7b\n",
    "            margin-top: 40px;\n",
    "            padding-top: 20px;\n",
    "            border-top: 1px solid #ddd;\n",
    "            text-align: center;\n",
    "            color: #666;\n",
    "            font-size: 0.9em;\n",
    "        \x7d\n",
    "    </style>\n",
    "</head>\n",
    "<body>\n",
    "    <h1>Go Packages</h1>\n",
    "\n",
    "    " ]

/-- The text of the `range` body up to the first link target. -/
def blockOpen : String :=
  text [
    "\n",
    "    <div class=\"package\">\n",
    "        <a class=\"package-name\" href=\"https://pkg.go.dev/" ]

/-- The text between the first link target and its label. -/
def blockLinkText : String :=
  "\" target=\"_blank\">"

/-- The text between the label of the first link and the target of the source link. -/
def blockRepoOpen : String :=
  text [
    "<svg class=\"external-icon\" width=\"14\" height=\"14\" viewBox=\"0 0 16 16\" fill=\"none\" xmlns=\"http://www.w3.org/2000/svg\"><path d=\"M6 3H3a1 1 0 0 0-1 1v9a1 1 0 0 0 1 1h9a1 1 0 0 0 1-1v-3M9 2h5m0 0v5m0-5L7 9\" stroke=\"currentColor\" stroke-width=\"1.5\" stroke-linecap=\"round\" stroke-linejoin=\"round\"/></svg></a>\n",
    "        <div class=\"package-repo\">\n",
    "            Source: <a href=\"" ]

/-- The text between the target of the source link and its label. -/
def blockRepoText : String :=
  "\" target=\"_blank\">"

/-- The text between the label of the source link and the index in the `id` attribute. -/
def blockCmdOpen : String :=
  text [
    "<svg class=\"external-icon\" width=\"12\" height=\"12\" viewBox=\"0 0 16 16\" fill=\"none\" xmlns=\"http://www.w3.org/2000/svg\"><path d=\"M6 3H3a1 1 0 0 0-1 1v9a1 1 0 0 0 1 1h9a1 1 0 0 0 1-1v-3M9 2h5m0 0v5m0-5L7 9\" stroke=\"currentColor\" stroke-width=\"1.5\" stroke-linecap=\"round\" stroke-linejoin=\"round\"/></svg></a>\n",
    "        </div>\n",
    "        <div class=\"install-cmd-wrapper\">\n",
    "            <div class=\"install-cmd\" id=\"cmd-" ]

/-- The text between the `id` attribute and the install command. -/
def blockCmdText : String :=
  "\">go get "

/-- The text between the install command and the index in the `onclick` attribute. -/
def blockButtonOpen : String :=
  text [
    "</div>\n",
    "            <button class=\"copy-btn\" onclick=\"copyToClipboard('cmd-" ]

/-- The text of the `range` body after the index in the `onclick` attribute. -/
def blockClose : String :=
  text [
    "', this)\">\n",
    "                <svg width=\"16\" height=\"16\" viewBox=\"0 0 16 16\" fill=\"none\" xmlns=\"http://www.w3.org/2000/svg\">\n",
    "                    <path d=\"M13.5 5.5v7a1.5 1.5 0 0 1-1.5 1.5H5a1.5 1.5 0 0 1-1.5-1.5v-7A1.5 1.5 0 0 1 5 4h7a1.5 1.5 0 0 1 1.5 1.5z\" stroke=\"currentColor\" stroke-width=\"1.5\" fill=\"none\"/>\n",
    "                    <path d=\"M5 4V3.5A1.5 1.5 0 0 1 6.5 2h7A1.5 1.5 0 0 1 15 3.5v7a1.5 1.5 0 0 1-1.5 1.5H13\" stroke=\"currentColor\" stroke-width=\"1.5\" fill=\"none\"/>\n",
    "                </svg>\n",
    "            </button>\n",
    "        </div>\n",
    "    </div>\n",
    "    " ]

/-- The text of `homeTemplate` between the `end` action and the paragraph of the
count. -/
def homeFooter : String :=
  text [
    "\n",
    "\n",
    "    <div class=\"footer\">\n",
    "        " ]

/-- The text of `homeTemplate` after the paragraph of the count; the escaper of
`html/template` drops the JavaScript line comment `// Visual feedback` and keeps
the rest of the text. -/
def homeScript : String :=
  text [
    "\n",
    "    </div>\n",
    "\n",
    "    <script>\n",
    "        function copyToClipboard(elementId, button) \x7b\n",
    "            const element = document.getElementById(elementId);\n",
    "            const text = element.textContent;\n",
    "\n",
    "            navigator.clipboard.writeText(text).then(() => \x7b\n",
    "                \n",
    "                button.classList.add('copied');\n",
    "                const originalHTML = button.innerHTML;\n",
    "                button.innerHTML = '<svg width=\"16\" height=\"16\" viewBox=\"0 0 16 16\" fill=\"none\" xmlns=\"http://www.w3.org/2000/svg\"><path d=\"M13 4L6 11L3 8\" stroke=\"currentColor\" stroke-width=\"2\" stroke-linecap=\"round\" stroke-linejoin=\"round\"/></svg>';\n",
    "\n",
    "                setTimeout(() => \x7b\n",
    "                    button.classList.remove('copied');\n",
    "                    button.innerHTML = originalHTML;\n",
    "                \x7d, 2000);\n",
    "            \x7d).catch(err => \x7b\n",
    "                console.error('Failed to copy:', err);\n",
    "            \x7d);\n",
    "        \x7d\n",
    "    </script>\n",
    "</body>\n",
    "</html>" ]

/-- One iteration of the `range` action of `homeTemplate`: the block of the package
`pkg` at position `index`, for the domain `domain` (`$.Domain`). -/
def homeBlock (domain : String) (index : Nat) (pkg : Package) : String :=
  blockOpen ++
  attrEscaper (urlNormalizer domain) ++ attrEscaper (urlNormalizer pkg.Path) ++
  blockLinkText ++
  htmlEscaper domain ++ htmlEscaper pkg.Path ++
  blockRepoOpen ++
  attrEscaper (urlNormalizer (urlFilter pkg.Repo)) ++
  blockRepoText ++
  htmlEscaper pkg.Repo ++
  blockCmdOpen ++
  attrEscaper (formatInt index) ++
  blockCmdText ++
  htmlEscaper domain ++ htmlEscaper pkg.Path ++
  blockButtonOpen ++
  attrEscaper (formatInt index) ++
  blockClose

/-- The action `range $index, $pkg := .Packages` of `homeTemplate`: the blocks of the
packages, in the order of the list, numbered from `index`. -/
def homeRange (domain : String) : Nat → List Package → String
  | _, [] => ""
  | index, pkg :: rest => homeBlock domain index pkg ++ homeRange domain (index + 1) rest

/-- The constant `homeTemplate`, executed on `data`. -/
def homeTemplate (data : HomeData) : String :=
  homeHead ++ rcdataEscaper data.Domain ++ homeStyle ++
  homeRange data.Domain 0 data.Packages ++
  homeFooter ++ "<p>Total packages: " ++ htmlEscaper (formatInt data.Count) ++ "</p>" ++
  homeScript

/-! ## The handlers -/

/-- The status `http.StatusOK`. -/
def StatusOK : Nat := 200

/-- The status `http.StatusNotFound`. -/
def StatusNotFound : Nat := 404

/-- The response of `http.NotFound`. -/
def NotFound : Response :=
  { status := StatusNotFound
    header := [("Content-Type", "text/plain; charset=utf-8"), ("X-Content-Type-Options", "nosniff")]
    body := "404 page not found\n" }

/-- The response of a handler that sets the content type and executes a template:
the first write sends the status 200. -/
def htmlResponse (body : String) : Response :=
  { status := StatusOK
    header := [("Content-Type", "text/html; charset=utf-8")]
    body := body }

/-- The function `homeHandler`.  The three templates are constants that parse, so
the branch of a parse error is never taken. -/
def homeHandler (g : Globals) (r : Request) : Response :=
  let data : HomeData :=
    { Domain := getHost g r, Packages := g.packages, Count := g.packages.length }
  htmlResponse (homeTemplate data)

/-- The function `packageHandler`. -/
def packageHandler (g : Globals) (r : Request) : Response :=
  match findPackage g.packages r.Path with
  | none => NotFound
  | some pkg =>
    if Values.Get r.Query "go-get" = "1" then
      let data : VanityData :=
        { Domain := getHost g r, Path := pkg.Path, Repo := pkg.Repo, VCS := pkg.VCS }
      htmlResponse (vanityTemplate data)
    else
      let data : RedirectData := { Domain := getHost g r, Path := pkg.Path }
      htmlResponse (redirectTemplate data)

/-! ## The router -/

/-- The two handler functions `main` registers. -/
inductive Handler where
  | homeHandler
  | packageHandler
  deriving DecidableEq, Repr

/-- Whether a pattern of `http.ServeMux` without method and host matches a path:
the pattern `/` matches every path, a pattern ending in `{$}` matches only the
path before the `{$}`, another pattern ending in a slash matches the paths it is
a prefix of, and any other pattern matches itself. -/
def patternMatches (pattern path : String) : Bool :=
  if pattern = "/" then true
  else if "\x7b$\x7d".data.isSuffixOf pattern.data then
    path.data == pattern.data.take (pattern.data.length - 3)
  else if "/".data.isSuffixOf pattern.data then pattern.data.isPrefixOf path.data
  else path == pattern

/-- Whether a pattern names a subtree: it ends in a slash. -/
def isSubtree (pattern : String) : Bool :=
  "/".data.isSuffixOf pattern.data

/-- The handler `http.ServeMux` selects among the registered routes: the most
specific pattern that matches wins, so a pattern for a single path comes before
the subtrees, and a longer subtree before a shorter one. -/
def muxHandler (routes : List (String × Handler)) (path : String) : Option Handler :=
  match routes.find? (fun e => !isSubtree e.1 && patternMatches e.1 path) with
  | some e => some e.2
  | none =>
    (routes.foldl
      (fun (best : Option (String × Handler)) e =>
        if isSubtree e.1 && patternMatches e.1 path then
          match best with
          | some b => if b.1.length < e.1.length then some e else some b
          | none => some e
        else best)
      none).map (fun e => e.2)

/-- The routes `main` registers with `http.HandleFunc`. -/
def routes : List (String × Handler) :=
  [("/\x7b$\x7d", Handler.homeHandler), ("/", Handler.packageHandler)]

/-- The elements of a path: the texts between its slashes. -/
def splitPath : List Char → List (List Char)
  | [] => [[]]
  | c :: cs =>
    if c = '/' then [] :: splitPath cs
    else
      match splitPath cs with
      | e :: es => (c :: e) :: es
      | [] => [[c]]

/-- The elements `path.Clean` keeps of a rooted path: an empty element and `.`
are dropped, `..` removes the element kept last (and is dropped at the root).
`kept` holds the elements kept so far, the last one first. -/
def cleanElements (kept : List (List Char)) : List (List Char) → List (List Char)
  | [] => kept.reverse
  | e :: es =>
    if e = [] ∨ e = ['.'] then cleanElements kept es
    else if e = ['.', '.'] then cleanElements kept.tail es
    else cleanElements (e :: kept) es

/-- The function `path.Clean` on a rooted path: a slash, then the elements that
are kept, separated by slashes. -/
def pathClean (p : String) : String :=
  ⟨'/' :: ['/'].intercalate (cleanElements [] (splitPath p.data))⟩

/-- The function `cleanPath` of `net/http`: the canonical path for `p`, without
`.` and `..` elements and without repeated slashes; a trailing slash is kept. -/
def cleanPath (p : String) : String :=
  if p = "" then "/"
  else
    let p := if p.data.head? ≠ some '/' then "/" ++ p else p
    let np := pathClean p
    if p.data.getLast? = some '/' ∧ np ≠ "/" then np ++ "/" else np

/-- The status `http.StatusTemporaryRedirect`. -/
def StatusTemporaryRedirect : Nat := 307

/-- What the mux does with a request: it runs a registered handler, or it answers
itself, with a redirect to the cleaned path or with its not-found handler. -/
inductive Dispatch where
  | handler (h : Handler)
  | redirect (path : String)
  | notFound
  deriving DecidableEq, Repr

/-- The dispatch of `http.ServeMux` for a request for a path, `path` being the
escaped path of the request (the method is not `CONNECT` and the request target
is not `*`): when `cleanPath` changes the path the mux answers with a redirect
to the cleaned path and runs no handler; otherwise the path is matched against
the registered patterns. -/
def route (path : String) : Dispatch :=
  if cleanPath path ≠ path then Dispatch.redirect (cleanPath path)
  else
    match muxHandler routes path with
    | some h => Dispatch.handler h
    | none => Dispatch.notFound

/-! ## The handlers as state transformers -/

/-- The state of a `http.ResponseWriter`: the header map `w.Header()`, the status
and the headers that were sent when the header was written (`none` before), and
the body written so far. -/
structure ResponseWriter where
  header : List (String × String)
  sent : Option (Nat × List (String × String))
  body : String

/-- The response writer a request starts with. -/
def ResponseWriter.fresh : ResponseWriter :=
  { header := [], sent := none, body := "" }

/-- The call `w.Header().Del(key)`. -/
def ResponseWriter.delHeader (w : ResponseWriter) (key : String) : ResponseWriter :=
  { w with header := w.header.filter (fun kv => kv.1 ≠ key) }

/-- The call `w.Header().Set(key, value)`. -/
def ResponseWriter.setHeader (w : ResponseWriter) (key value : String) : ResponseWriter :=
  { w with header := w.header.filter (fun kv => kv.1 ≠ key) ++ [(key, value)] }

/-- The call `w.WriteHeader(code)`: the status and the header map are sent, once. -/
def ResponseWriter.writeHeader (w : ResponseWriter) (code : Nat) : ResponseWriter :=
  match w.sent with
  | some _ => w
  | none => { w with sent := some (code, w.header) }

/-- The call `w.Write(text)`: the first write sends the status 200 when no header
was written before. -/
def ResponseWriter.write (w : ResponseWriter) (text : String) : ResponseWriter :=
  let w := w.writeHeader StatusOK
  { w with body := w.body ++ text }

/-- The response a client receives from a response writer when the handler has
returned; a handler that wrote nothing has sent the status 200. -/
def ResponseWriter.response (w : ResponseWriter) : Response :=
  match w.sent with
  | some (code, header) => { status := code, header := header, body := w.body }
  | none => { status := StatusOK, header := w.header, body := w.body }

/-- The function `http.Error`. -/
def httpError (w : ResponseWriter) (error : String) (code : Nat) : ResponseWriter :=
  let w := w.delHeader "Content-Length"
  let w := w.setHeader "Content-Type" "text/plain; charset=utf-8"
  let w := w.setHeader "X-Content-Type-Options" "nosniff"
  let w := w.writeHeader code
  w.write (error ++ "\n")

/-- The function `http.NotFound`. -/
def httpNotFound (w : ResponseWriter) : ResponseWriter :=
  httpError w "404 page not found" StatusNotFound

/-- What a running handler can read and write: the package-level variables of
`main.go` and the response writer of the request. -/
structure State where
  vars : Globals
  w : ResponseWriter

/-- The state in which the server starts to handle a request: the package-level
variables as they are, and a fresh response writer. -/
def State.start (g : Globals) : State :=
  { vars := g, w := ResponseWriter.fresh }

/-- The body of `homeHandler`, statement by statement: it reads the package-level
variables into `data`, parses the template (a constant that parses), sets the
content type and executes the template into `w`. -/
def homeHandler.run (r : Request) (s : State) : State :=
  let data : HomeData :=
    { Domain := getHost s.vars r, Packages := s.vars.packages, Count := s.vars.packages.length }
  let s := { s with w := s.w.setHeader "Content-Type" "text/html; charset=utf-8" }
  { s with w := s.w.write (homeTemplate data) }

/-- The body of `packageHandler`, statement by statement: the lookup loop over
`packages`, `http.NotFound` for the `nil` pointer, and in each branch of the test
of `go-get` the data, the content type and the execution of the template. -/
def packageHandler.run (r : Request) (s : State) : State :=
  let path := r.Path
  match findPackage s.vars.packages path with
  | none => { s with w := httpNotFound s.w }
  | some pkg =>
    if Values.Get r.Query "go-get" = "1" then
      let data : VanityData :=
        { Domain := getHost s.vars r, Path := pkg.Path, Repo := pkg.Repo, VCS := pkg.VCS }
      let s := { s with w := s.w.setHeader "Content-Type" "text/html; charset=utf-8" }
      { s with w := s.w.write (vanityTemplate data) }
    else
      let data : RedirectData := { Domain := getHost s.vars r, Path := pkg.Path }
      let s := { s with w := s.w.setHeader "Content-Type" "text/html; charset=utf-8" }
      { s with w := s.w.write (redirectTemplate data) }

/-- The answer to a request: the response a handler left in the response writer,
or the redirect of the mux, with its status and the path it redirects to (the
mux keeps the query of the request). -/
inductive Reply where
  | response (resp : Response)
  | redirect (code : Nat) (path : String)
  deriving DecidableEq, Repr

/-- Serving one request: the mux dispatches on the escaped path; a handler runs
on the package-level variables and a fresh response writer.  The result is the
answer together with the package-level variables the run has left. -/
def serve (g : Globals) (r : Request) : Reply × Globals :=
  match route r.EscapedPath with
  | Dispatch.redirect path => (Reply.redirect StatusTemporaryRedirect path, g)
  | Dispatch.notFound => (Reply.response (httpNotFound ResponseWriter.fresh).response, g)
  | Dispatch.handler Handler.homeHandler =>
    let s := homeHandler.run r (State.start g)
    (Reply.response s.w.response, s.vars)
  | Dispatch.handler Handler.packageHandler =>
    let s := packageHandler.run r (State.start g)
    (Reply.response s.w.response, s.vars)

/-! ## Notions used to state the properties -/

/-- The text `pat` occurs in `body`. -/
def Contains (body pat : String) : Prop := pat.data <:+: body.data

instance (body pat : String) : Decidable (Contains body pat) :=
  inferInstanceAs (Decidable (pat.data <:+: body.data))

/-- The text `body` begins with `pat`. -/
def StartsWith (body pat : String) : Prop := pat.data <+: body.data

instance (body pat : String) : Decidable (StartsWith body pat) :=
  inferInstanceAs (Decidable (pat.data <+: body.data))

/-- A string the HTML escapers leave unchanged: none of its characters has an
entry in `htmlReplacementTable` (NUL, the two quotes, `&`, `+`, `<`, `>`). -/
def htmlPlain (s : String) : Prop := ∀ c ∈ s.data, htmlReplacementTable c = none

instance (s : String) : Decidable (htmlPlain s) :=
  inferInstanceAs (Decidable (∀ c ∈ s.data, htmlReplacementTable c = none))

/-- A character that neither the URL normaliser nor the HTML escapers change: an
ASCII letter or digit or one of `- . _ ~ ! # $ * , / : ; = ? @ [ ]`. -/
def urlSafeChar (c : Char) : Bool :=
  ('a' ≤ c && c ≤ 'z') || ('A' ≤ c && c ≤ 'Z') || ('0' ≤ c && c ≤ '9') ||
  decide (c ∈ ['-', '.', '_', '~', '!', '#', '$', '*', ',', '/', ':', ';', '=', '?', '@', '[', ']'])

/-- A string of characters that neither the URL normaliser nor the HTML escapers
change. -/
def urlSafe (s : String) : Prop := ∀ c ∈ s.data, urlSafeChar c = true

instance (s : String) : Decidable (urlSafe s) :=
  inferInstanceAs (Decidable (∀ c ∈ s.data, urlSafeChar c = true))

/-- The number of positions of `l` at which `pat` begins. -/
def countOcc (pat : List Char) : List Char → Nat
  | [] => 0
  | c :: l => (if pat.isPrefixOf (c :: l) then 1 else 0) + countOcc pat l

/-- The number of occurrences of the text `pat` in `body`. -/
def occurrences (body pat : String) : Nat := countOcc pat.data body.data

/-- Whether `pat` begins `l`, when that does not depend on what follows `l`. -/
def matchWithin : List Char → List Char → Option Bool
  | [], _ => some true
  | _ :: _, [] => none
  | a :: p, c :: l => if a = c then matchWithin p l else some false

/-- The number of positions of `l` at which `pat` begins, added to `acc`, when no
occurrence of `pat` that begins in `l` depends on what follows `l`. -/
def countWithin (pat : List Char) : List Char → Nat → Option Nat
  | [], acc => some acc
  | c :: l, acc =>
    match matchWithin pat (c :: l) with
    | some true => countWithin pat l (acc + 1)
    | some false => countWithin pat l acc
    | none => none

/-- No two consecutive left braces occur in `l`; `prev` tells whether the character
before `l` is a left brace. -/
def noActionOpen (prev : Bool) : List Char → Bool
  | [] => true
  | c :: l => if c = Char.ofNat 123 then !prev && noActionOpen true l else noActionOpen false l

/-- Whether `l` ends with a left brace; `prev` is the answer for the empty list. -/
def endsWithBrace (prev : Bool) : List Char → Bool
  | [] => prev
  | c :: l => endsWithBrace (decide (c = Char.ofNat 123)) l

/-- The package-level variables when no environment variable is set: the header
is `X-Forwarded-Host` and there is no override. -/
def defaultGlobals : Globals := initGlobals (fun _ => "")

/-- A request with the given path, query and host whose `X-Forwarded-Host` header
has the value `forwarded` (no such header when `forwarded` is empty); no
character of the path is percent-encoded. -/
def exampleRequest (path : String) (query : List (String × String)) (forwarded host : String) :
    Request :=
  { Path := path
    Query := query
    Header := fun k => if k = "X-Forwarded-Host" then forwarded else ""
    Host := host
    EscapedPath := path }

/-- The first entry of the compiled-in registry. -/
def goUtils : Package :=
  { Path := "/go-utils", Repo := "https://github.com/aykhans/go-utils", VCS := "git" }

/-- The opening tag of a package block of the home page. -/
def blockMarker : String := "<div class=\"package\">"

/-- The beginning of the paragraph of the home page that shows the count. -/
def totalMarker : String := "<p>Total packages: "

/-! ## Theorems -/

/-! ## Lemmas on texts -/

theorem StartsWith.base (p rest : String) : StartsWith (p ++ rest) p :=
  List.prefix_append _ _

theorem StartsWith.cons (a : String) {p b : String} (h : StartsWith b p) :
    StartsWith (a ++ b) (a ++ p) := by
  unfold StartsWith at *
  simp only [String.data_append]
  exact (List.prefix_append_right_inj _).2 h

theorem Contains.of_startsWith {b p : String} (h : StartsWith b p) : Contains b p :=
  List.IsPrefix.isInfix h

theorem Contains.skip (a : String) {b p : String} (h : Contains b p) : Contains (a ++ b) p := by
  unfold Contains at *
  simp only [String.data_append]
  exact List.IsInfix.trans h (List.suffix_append _ _).isInfix

theorem Contains.trans {a b c : String} (h1 : Contains b a) (h2 : Contains c b) : Contains c a :=
  List.IsInfix.trans h1 h2

theorem Contains.left (a b : String) : Contains (a ++ b) a :=
  (List.prefix_append _ _).isInfix

theorem Contains.right (a b : String) : Contains (a ++ b) b :=
  (List.suffix_append _ _).isInfix

theorem flatMap_eq_self {α : Type} (f : α → List α) (l : List α) (h : ∀ c ∈ l, f c = [c]) :
    l.flatMap f = l := by
  induction l with
  | nil => rfl
  | cons c l ih =>
    rw [List.flatMap_cons, h c (List.mem_cons_self _ _),
      ih (fun d hd => h d (List.mem_cons_of_mem _ hd))]
    rfl

theorem htmlReplacer_of_plain (s : String) (h : htmlPlain s) : htmlReplacer s = s := by
  apply String.ext
  show s.data.flatMap htmlReplaceRune = s.data
  apply flatMap_eq_self
  intro c hc
  simp [htmlReplaceRune, h c hc]

theorem attrEscaper_of_plain (s : String) (h : htmlPlain s) : attrEscaper s = s :=
  htmlReplacer_of_plain s h

theorem htmlEscaper_of_plain (s : String) (h : htmlPlain s) : htmlEscaper s = s :=
  htmlReplacer_of_plain s h

theorem attrEscaper_append (a b : String) :
    attrEscaper (a ++ b) = attrEscaper a ++ attrEscaper b := by
  apply String.ext
  simp [attrEscaper, htmlReplacer, String.data_append, List.flatMap_append]

theorem urlSafeChar_table (c : Char) (h : urlSafeChar c = true) :
    htmlReplacementTable c = none := by
  unfold htmlReplacementTable
  split_ifs with h0 h1 h2 h3 h4 h5 h6
  · subst h0; exact absurd h (by decide)
  · subst h1; exact absurd h (by decide)
  · subst h2; exact absurd h (by decide)
  · subst h3; exact absurd h (by decide)
  · subst h4; exact absurd h (by decide)
  · subst h5; exact absurd h (by decide)
  · subst h6; exact absurd h (by decide)
  · rfl

theorem urlSafeChar_keep (c : Char) (rest : List Char) (h : urlSafeChar c = true) :
    urlKeep true c rest = true := by
  unfold urlKeep
  split_ifs with h1 h2 h3
  · rfl
  · rfl
  · subst h3; exact absurd h (by decide)
  · simp only [urlSafeChar, Bool.or_eq_true, decide_eq_true_eq] at h
    rcases h with h | h
    · simpa [or_assoc] using h
    · exfalso
      simp only [List.mem_cons, List.mem_singleton, List.not_mem_nil, or_false] at h h1 h2
      rcases h with h | h | h | h | h | h | h | h | h | h | h | h | h | h | h | h | h <;>
        simp [h] at h1 h2

theorem urlSafe_normal (s : String) (h : urlSafe s) : urlNormalizer s = s := by
  apply String.ext
  show processURLOnto true s.data = s.data
  have : ∀ l : List Char, (∀ c ∈ l, urlSafeChar c = true) → processURLOnto true l = l := by
    intro l
    induction l with
    | nil => intro _; rfl
    | cons c l ih =>
      intro hl
      simp only [processURLOnto, urlSafeChar_keep c l (hl c (List.mem_cons_self _ _)), if_true,
        ih (fun d hd => hl d (List.mem_cons_of_mem _ hd))]
      rfl
  exact this _ h

theorem urlSafe_plain (s : String) (h : urlSafe s) : htmlPlain s :=
  fun c hc => urlSafeChar_table c (h c hc)

/-! ## Lemmas on the lookup -/

theorem findPackage_eq_none (ps : List Package) (path : String) :
    findPackage ps path = none ↔ ∀ p ∈ ps, p.Path ≠ path := by
  induction ps with
  | nil => simp [findPackage]
  | cons p ps ih =>
    by_cases h : p.Path = path
    · simp [findPackage, h]
    · simp [findPackage, h, ih]

theorem findPackage_eq_some (ps : List Package) (path : String) (pkg : Package)
    (h : findPackage ps path = some pkg) : pkg ∈ ps ∧ pkg.Path = path := by
  induction ps with
  | nil => simp [findPackage] at h
  | cons p ps ih =>
    by_cases hp : p.Path = path
    · simp [findPackage, hp] at h
      subst h
      exact ⟨List.mem_cons_self _ _, hp⟩
    · simp [findPackage, hp] at h
      exact ⟨List.mem_cons_of_mem _ (ih h).1, (ih h).2⟩

theorem packageHandler_vanity (g : Globals) (r : Request) (pkg : Package)
    (hfind : findPackage g.packages r.Path = some pkg)
    (hq : Values.Get r.Query "go-get" = "1") :
    packageHandler g r = htmlResponse (vanityTemplate
      { Domain := getHost g r, Path := pkg.Path, Repo := pkg.Repo, VCS := pkg.VCS }) := by
  simp [packageHandler, hfind, hq]

theorem packageHandler_redirect (g : Globals) (r : Request) (pkg : Package)
    (hfind : findPackage g.packages r.Path = some pkg)
    (hq : Values.Get r.Query "go-get" ≠ "1") :
    packageHandler g r = htmlResponse (redirectTemplate
      { Domain := getHost g r, Path := pkg.Path }) := by
  simp [packageHandler, hfind, hq]

theorem Values.Get_absent (q : List (String × String)) (key : String)
    (h : ∀ kv ∈ q, kv.1 ≠ key) : Values.Get q key = "" := by
  have : q.find? (fun kv => kv.1 == key) = none := by
    rw [List.find?_eq_none]
    intro kv hkv
    simpa using h kv hkv
  simp [Values.Get, this]

/-! ## Lemmas on counting occurrences -/

theorem matchWithin_sound : ∀ (p l : List Char) (b : Bool), matchWithin p l = some b →
    ∀ rest : List Char, p.isPrefixOf (l ++ rest) = b
  | [], l, b, h, rest => by
    simp [matchWithin] at h
    simp [← h]
  | _ :: _, [], b, h, rest => by simp [matchWithin] at h
  | a :: p, c :: l, b, h, rest => by
    by_cases hac : a = c
    · simp only [matchWithin, hac, if_true] at h
      have ih := matchWithin_sound p l b h rest
      simp [List.isPrefixOf, hac, ih]
    · simp only [matchWithin, hac, if_false, Option.some.injEq] at h
      simp [List.isPrefixOf, hac, ← h]

theorem countWithin_sound : ∀ (p l : List Char) (acc k : Nat), countWithin p l acc = some k →
    ∀ rest : List Char, countOcc p (l ++ rest) + acc = k + countOcc p rest
  | p, [], acc, k, h, rest => by
    simp only [countWithin, Option.some.injEq] at h
    simp only [List.nil_append]
    omega
  | p, c :: l, acc, k, h, rest => by
    unfold countWithin at h
    cases hm : matchWithin p (c :: l) with
    | none => simp [hm] at h
    | some b =>
      have h1 := matchWithin_sound p (c :: l) b hm rest
      rw [List.cons_append] at h1 ⊢
      cases b with
      | true =>
        simp only [hm] at h
        have h2 := countWithin_sound p l (acc + 1) k h rest
        rw [countOcc, h1, if_pos rfl]
        omega
      | false =>
        simp only [hm] at h
        have h2 := countWithin_sound p l acc k h rest
        rw [countOcc, h1]
        simp only [Bool.false_eq_true, if_false]
        omega

theorem countOcc_dynamic (a : Char) (p d rest : List Char) (h : a ∉ d) :
    countOcc (a :: p) (d ++ rest) = countOcc (a :: p) rest := by
  induction d with
  | nil => rfl
  | cons c d ih =>
    have hc : a ≠ c := fun e => h (e ▸ List.mem_cons_self _ _)
    have hd : a ∉ d := fun e => h (List.mem_cons_of_mem _ e)
    rw [List.cons_append, countOcc, ih hd]
    simp [List.isPrefixOf, hc]

theorem htmlReplaceRune_no_lt (c : Char) : '<' ∉ htmlReplaceRune c := by
  unfold htmlReplaceRune htmlReplacementTable
  split_ifs with h0 h1 h2 h3 h4 h5 h6
  · subst h0; decide
  · subst h1; decide
  · subst h2; decide
  · subst h3; decide
  · subst h4; decide
  · subst h5; decide
  · subst h6; decide
  · simpa using fun e : '<' = c => h5 e.symm

theorem htmlReplacer_no_lt (s : String) : '<' ∉ (htmlReplacer s).data := by
  show '<' ∉ s.data.flatMap htmlReplaceRune
  rw [List.mem_flatMap]
  rintro ⟨c, _, hc⟩
  exact htmlReplaceRune_no_lt c hc

theorem countOcc_escaped (pat : List Char) (hpat : pat.head? = some '<') (s : String)
    (rest : List Char) :
    countOcc pat ((htmlReplacer s).data ++ rest) = countOcc pat rest := by
  cases pat with
  | nil => simp at hpat
  | cons a p =>
    simp only [List.head?_cons, Option.some.injEq] at hpat
    subst hpat
    exact countOcc_dynamic _ _ _ _ (htmlReplacer_no_lt s)

theorem countOcc_static (pat l : List Char) (k : Nat) (rest : List Char)
    (h : countWithin pat l 0 = some k) :
    countOcc pat (l ++ rest) = k + countOcc pat rest :=
  countWithin_sound _ _ 0 _ h rest

theorem occurrences_eq (s pat : String) :
    occurrences s pat = countOcc pat.data (s.data ++ []) := by
  rw [List.append_nil]
  rfl

theorem blockMarker_head : blockMarker.data.head? = some '<' := by decide

/-! ## Decimal numbers -/

theorem toDigitsCore_plain : ∀ (fuel n : Nat) (ds : List Char),
    (∀ c ∈ ds, htmlReplacementTable c = none) →
    ∀ c ∈ Nat.toDigitsCore 10 fuel n ds, htmlReplacementTable c = none
  | 0, _, ds, h => by simpa [Nat.toDigitsCore] using h
  | fuel + 1, n, ds, h => by
    have hd : htmlReplacementTable (Nat.digitChar (n % 10)) = none := by
      have : ∀ k, k < 10 → htmlReplacementTable (Nat.digitChar k) = none := by decide
      exact this _ (Nat.mod_lt _ (by decide))
    have h' : ∀ c ∈ Nat.digitChar (n % 10) :: ds, htmlReplacementTable c = none := by
      intro c hc
      rcases List.mem_cons.1 hc with rfl | hc
      · exact hd
      · exact h c hc
    simp only [Nat.toDigitsCore]
    split_ifs
    · exact h'
    · exact toDigitsCore_plain fuel (n / 10) _ h'

theorem formatInt_plain (n : Nat) : htmlPlain (formatInt n) := by
  show ∀ c ∈ (Nat.toDigits 10 n).asString.data, htmlReplacementTable c = none
  exact toDigitsCore_plain _ _ [] (by simp)

/-! ## Lemmas on consecutive left braces -/

theorem noActionOpen_of_true : ∀ (l : List Char) (prev : Bool),
    noActionOpen true l = true → noActionOpen prev l = true
  | [], _, _ => rfl
  | c :: l, prev, h => by
    by_cases hc : c = Char.ofNat 123
    · simp [noActionOpen, hc] at h
    · simpa [noActionOpen, hc] using h

theorem noActionOpen_append : ∀ (x y : List Char) (prev : Bool),
    noActionOpen prev (x ++ y) = (noActionOpen prev x && noActionOpen (endsWithBrace prev x) y)
  | [], y, prev => by simp [noActionOpen, endsWithBrace]
  | c :: x, y, prev => by
    by_cases hc : c = Char.ofNat 123
    · simp [noActionOpen, endsWithBrace, hc, noActionOpen_append x y true, Bool.and_assoc]
    · simp [noActionOpen, endsWithBrace, hc, noActionOpen_append x y false]

theorem noActionOpen_static {prev : Bool} (s y : List Char)
    (h1 : noActionOpen true s = true) (h2 : endsWithBrace true s = false)
    (hy : noActionOpen false y = true) : noActionOpen prev (s ++ y) = true := by
  have h3 : endsWithBrace prev s = false := by
    cases s with
    | nil => simp [endsWithBrace] at h2
    | cons c s => simpa [endsWithBrace] using h2
  rw [noActionOpen_append, h3, hy, noActionOpen_of_true s prev h1]
  rfl

theorem noActionOpen_dynamic (d y : List Char)
    (hd : noActionOpen false d = true) (hy : noActionOpen true y = true) :
    noActionOpen false (d ++ y) = true := by
  rw [noActionOpen_append, hd, noActionOpen_of_true y _ hy]
  rfl

theorem noActionOpen_iff : ∀ (l : List Char) (prev : Bool),
    noActionOpen prev l = true ↔
      (¬ [Char.ofNat 123, Char.ofNat 123] <:+: l) ∧ (prev = true → l.head? ≠ some (Char.ofNat 123))
  | [], prev => by simp [noActionOpen]
  | c :: l, prev => by
    by_cases hc : c = Char.ofNat 123
    · subst hc
      have ih := noActionOpen_iff l true
      simp only [noActionOpen, if_true, Bool.and_eq_true, Bool.not_eq_true', ih,
        List.infix_cons_iff, List.cons_prefix_cons, true_and, forall_const, List.head?_cons,
        ne_eq, not_true_eq_false, imp_false, Bool.not_eq_true]
      cases l with
      | nil => simp
      | cons a l =>
        simp only [List.cons_prefix_cons, List.nil_prefix, and_true, List.head?_cons,
          Option.some.injEq]
        constructor
        · rintro ⟨h1, h2, h3⟩
          exact ⟨fun h => h.elim (fun e => h3 e.symm) h2, h1⟩
        · rintro ⟨h1, h2⟩
          exact ⟨h2, fun h => h1 (Or.inr h), fun e => h1 (Or.inl e.symm)⟩
    · have ih := noActionOpen_iff l false
      have hc' : ¬ Char.ofNat 123 = c := fun e => hc e.symm
      simp [noActionOpen, hc, hc', ih, List.infix_cons_iff, List.cons_prefix_cons]

theorem noActionOpen_iff_contains (s : String) :
    noActionOpen false s.data = true ↔ ¬ Contains s "\x7b\x7b" := by
  rw [noActionOpen_iff]
  simp only [Bool.false_eq_true, false_implies, and_true]
  rfl

theorem htmlReplaceRune_braces (c : Char) (prev : Bool) :
    noActionOpen prev (htmlReplaceRune c) = noActionOpen prev [c] ∧
    endsWithBrace prev (htmlReplaceRune c) = endsWithBrace prev [c] := by
  unfold htmlReplaceRune htmlReplacementTable
  split_ifs with h0 h1 h2 h3 h4 h5 h6
  · subst h0; constructor <;> (cases prev <;> decide)
  · subst h1; constructor <;> (cases prev <;> decide)
  · subst h2; constructor <;> (cases prev <;> decide)
  · subst h3; constructor <;> (cases prev <;> decide)
  · subst h4; constructor <;> (cases prev <;> decide)
  · subst h5; constructor <;> (cases prev <;> decide)
  · subst h6; constructor <;> (cases prev <;> decide)
  · exact ⟨rfl, rfl⟩

theorem noActionOpen_flatMap : ∀ (l : List Char) (prev : Bool),
    noActionOpen prev (l.flatMap htmlReplaceRune) = noActionOpen prev l
  | [], _ => rfl
  | c :: l, prev => by
    have h := htmlReplaceRune_braces c prev
    rw [List.flatMap_cons, noActionOpen_append, h.1, h.2, noActionOpen_flatMap l,
      ← noActionOpen_append]
    rfl

theorem noActionOpen_escaped (s : String) (h : ¬ Contains s "\x7b\x7b") :
    noActionOpen false (htmlReplacer s).data = true := by
  show noActionOpen false (s.data.flatMap htmlReplaceRune) = true
  rw [noActionOpen_flatMap]
  exact (noActionOpen_iff_contains s).2 h

theorem noActionOpen_escaped_pair (s t : String) (h : ¬ Contains (s ++ t) "\x7b\x7b") :
    noActionOpen false ((htmlReplacer s).data ++ (htmlReplacer t).data) = true := by
  have := noActionOpen_escaped (s ++ t) h
  simpa [htmlReplacer, String.data_append, List.flatMap_append] using this

theorem noActionOpen_dynamic_pair (d e y : List Char)
    (hd : noActionOpen false (d ++ e) = true) (hy : noActionOpen true y = true) :
    noActionOpen false (d ++ (e ++ y)) = true := by
  rw [← List.append_assoc]
  exact noActionOpen_dynamic _ _ hd hy

/-! ## The vanity page -/

theorem vanityTemplate_go_import (d : VanityData) :
    Contains (vanityTemplate d)
      ("<meta name=\"go-import\" content=\"" ++ attrEscaper d.Domain ++ attrEscaper d.Path ++ " " ++
        attrEscaper d.VCS ++ " " ++ attrEscaper d.Repo ++ "\">") := by
  simp only [vanityTemplate, String.append_assoc]
  apply Contains.skip
  apply Contains.of_startsWith
  iterate 7 apply StartsWith.cons
  apply StartsWith.base

theorem vanityTemplate_go_source (d : VanityData) :
    Contains (vanityTemplate d)
      ("<meta name=\"go-source\" content=\"" ++ attrEscaper d.Domain ++ attrEscaper d.Path ++ " " ++
        attrEscaper d.Repo ++ " " ++ attrEscaper d.Repo ++ "/tree/master\x7b/dir\x7d " ++
        attrEscaper d.Repo ++ "/blob/master\x7b/dir\x7d/\x7bfile\x7d#L\x7bline\x7d" ++ "\">") := by
  simp only [vanityTemplate, String.append_assoc]
  iterate 10 apply Contains.skip
  apply Contains.of_startsWith
  iterate 10 apply StartsWith.cons
  apply StartsWith.base

theorem vanityTemplate_no_action_open (d : VanityData)
    (hdp : ¬ Contains (d.Domain ++ d.Path) "\x7b\x7b") (hr : ¬ Contains d.Repo "\x7b\x7b")
    (hv : ¬ Contains d.VCS "\x7b\x7b") : ¬ Contains (vanityTemplate d) "\x7b\x7b" := by
  rw [← noActionOpen_iff_contains]
  have hDP := noActionOpen_escaped_pair _ _ hdp
  have hR := noActionOpen_escaped _ hr
  have hV := noActionOpen_escaped _ hv
  simp only [vanityTemplate, attrEscaper, htmlEscaper, String.data_append, List.append_assoc]
  apply noActionOpen_static _ _ (by decide) (by decide)
  apply noActionOpen_static _ _ (by decide) (by decide)
  apply noActionOpen_dynamic_pair _ _ _ hDP
  apply noActionOpen_static _ _ (by decide) (by decide)
  apply noActionOpen_dynamic _ _ hV
  apply noActionOpen_static _ _ (by decide) (by decide)
  apply noActionOpen_dynamic _ _ hR
  apply noActionOpen_static _ _ (by decide) (by decide)
  apply noActionOpen_static _ _ (by decide) (by decide)
  apply noActionOpen_static _ _ (by decide) (by decide)
  apply noActionOpen_dynamic_pair _ _ _ hDP
  apply noActionOpen_static _ _ (by decide) (by decide)
  apply noActionOpen_dynamic _ _ hR
  apply noActionOpen_static _ _ (by decide) (by decide)
  apply noActionOpen_dynamic _ _ hR
  apply noActionOpen_static _ _ (by decide) (by decide)
  apply noActionOpen_dynamic _ _ hR
  apply noActionOpen_static _ _ (by decide) (by decide)
  apply noActionOpen_static _ _ (by decide) (by decide)
  apply noActionOpen_static _ _ (by decide) (by decide)
  apply noActionOpen_dynamic_pair _ _ _ hDP
  decide

theorem noActionOpen_host_path (host P : String) (hh : ¬ Contains host "\x7b\x7b")
    (hp : noActionOpen true P.data = true) : ¬ Contains (host ++ P) "\x7b\x7b" := by
  rw [← noActionOpen_iff_contains] at hh ⊢
  rw [String.data_append]
  exact noActionOpen_dynamic _ _ hh hp

theorem vanityTemplate_one_go_import (d : VanityData) :
    occurrences (vanityTemplate d) "<meta name=\"go-import\"" = 1 := by
  have hd := countOcc_escaped ("<meta name=\"go-import\"" : String).data (by decide)
  rw [occurrences_eq]
  simp only [vanityTemplate, attrEscaper, htmlEscaper]
  repeat rw [String.data_append]
  repeat rw [List.append_assoc]
  rw [countOcc_static _ _ 0, countOcc_static _ _ 1, hd, hd, countOcc_static _ _ 0, hd,
    countOcc_static _ _ 0, hd, countOcc_static _ _ 0, countOcc_static _ _ 0,
    countOcc_static _ _ 0, hd, hd, countOcc_static _ _ 0, hd, countOcc_static _ _ 0, hd,
    countOcc_static _ _ 0, hd, countOcc_static _ _ 0, countOcc_static _ _ 0,
    countOcc_static _ _ 0, hd, hd, countOcc_static _ _ 0]
  · simp [countOcc]
  all_goals decide

theorem vanityTemplate_one_go_source (d : VanityData) :
    occurrences (vanityTemplate d) "<meta name=\"go-source\"" = 1 := by
  have hd := countOcc_escaped ("<meta name=\"go-source\"" : String).data (by decide)
  rw [occurrences_eq]
  simp only [vanityTemplate, attrEscaper, htmlEscaper]
  repeat rw [String.data_append]
  repeat rw [List.append_assoc]
  rw [countOcc_static _ _ 0, countOcc_static _ _ 0, hd, hd, countOcc_static _ _ 0, hd,
    countOcc_static _ _ 0, hd, countOcc_static _ _ 0, countOcc_static _ _ 0,
    countOcc_static _ _ 1, hd, hd, countOcc_static _ _ 0, hd, countOcc_static _ _ 0, hd,
    countOcc_static _ _ 0, hd, countOcc_static _ _ 0, countOcc_static _ _ 0,
    countOcc_static _ _ 0, hd, hd, countOcc_static _ _ 0]
  · simp [countOcc]
  all_goals decide

/-- C1 (as amended).  For a request whose path is found in the registry as the
entry `pkg` and whose `go-get` parameter is `1`, `packageHandler` answers with
status 200 and a body with one `go-import` meta tag, which has the content
`E(<host><P> <V> <R>)`, where `E` is the attribute escaper of `html/template`.
The body contains `R`, `V`, and the host followed by `P`, verbatim when they
contain none of the characters the escaper replaces, and the content is
`<host><P> <V> <R>` when none of the four does.  Every compiled-in entry is
found for its path, and its `P`, `V` and `R` are such strings. -/
theorem packageHandler_vanity_go_import (g : Globals) (r : Request) (pkg : Package)
    (hfind : findPackage g.packages r.Path = some pkg)
    (hq : Values.Get r.Query "go-get" = "1") :
    (packageHandler g r).status = 200 ∧
    pkg.Path = r.Path ∧
    Contains (packageHandler g r).body
      ("<meta name=\"go-import\" content=\"" ++
        attrEscaper (getHost g r ++ pkg.Path ++ " " ++ pkg.VCS ++ " " ++ pkg.Repo) ++ "\">") ∧
    (htmlPlain (getHost g r) → htmlPlain pkg.Path → htmlPlain pkg.VCS → htmlPlain pkg.Repo →
      Contains (packageHandler g r).body
        ("<meta name=\"go-import\" content=\"" ++ getHost g r ++ pkg.Path ++ " " ++ pkg.VCS ++
          " " ++ pkg.Repo ++ "\">")) ∧
    (htmlPlain pkg.Repo → Contains (packageHandler g r).body pkg.Repo) ∧
    (htmlPlain pkg.VCS → Contains (packageHandler g r).body pkg.VCS) ∧
    (htmlPlain (getHost g r) → htmlPlain pkg.Path →
      Contains (packageHandler g r).body (getHost g r ++ pkg.Path)) ∧
    (∀ p ∈ packages, findPackage packages p.Path = some p ∧
      htmlPlain p.Path ∧ htmlPlain p.VCS ∧ htmlPlain p.Repo) ∧
    occurrences (packageHandler g r).body "<meta name=\"go-import\"" = 1 := by
  have hbody := packageHandler_vanity g r pkg hfind hq
  have himp : Contains (packageHandler g r).body
      ("<meta name=\"go-import\" content=\"" ++ attrEscaper (getHost g r) ++
        attrEscaper pkg.Path ++ " " ++ attrEscaper pkg.VCS ++ " " ++ attrEscaper pkg.Repo ++
        "\">") := by
    rw [hbody]
    exact vanityTemplate_go_import
      { Domain := getHost g r, Path := pkg.Path, Repo := pkg.Repo, VCS := pkg.VCS }
  refine ⟨by rw [hbody]; rfl, (findPackage_eq_some _ _ _ hfind).2, ?_, ?_, ?_, ?_, ?_,
    by decide, by rw [hbody]; exact vanityTemplate_one_go_import _⟩
  · simpa only [attrEscaper_append, attrEscaper_of_plain " " (by decide),
      String.append_assoc] using himp
  · intro hh hp hv hr
    simpa only [attrEscaper_of_plain _ hh, attrEscaper_of_plain _ hp, attrEscaper_of_plain _ hv,
      attrEscaper_of_plain _ hr] using himp
  · intro hr
    refine Contains.trans ?_ himp
    simp only [attrEscaper_of_plain _ hr, String.append_assoc]
    iterate 6 apply Contains.skip
    exact Contains.left _ _
  · intro hv
    refine Contains.trans ?_ himp
    simp only [attrEscaper_of_plain _ hv, String.append_assoc]
    iterate 4 apply Contains.skip
    exact Contains.left _ _
  · intro hh hp
    refine Contains.trans ?_ himp
    simp only [attrEscaper_of_plain _ hh, attrEscaper_of_plain _ hp, String.append_assoc]
    apply Contains.skip
    apply Contains.of_startsWith
    apply StartsWith.cons
    exact StartsWith.base _ _

/-- Witness for C1: the request `/go-utils?go-get=1` for the host `example.org`. -/
theorem packageHandler_vanity_go_import_witness :
    findPackage defaultGlobals.packages
      (exampleRequest "/go-utils" [("go-get", "1")] "" "example.org").Path = some goUtils ∧
    (packageHandler defaultGlobals
      (exampleRequest "/go-utils" [("go-get", "1")] "" "example.org")).status = 200 ∧
    Contains (packageHandler defaultGlobals
      (exampleRequest "/go-utils" [("go-get", "1")] "" "example.org")).body
      "<meta name=\"go-import\" content=\"example.org/go-utils git https://github.com/aykhans/go-utils\">" :=
  ⟨by decide,
   (packageHandler_vanity_go_import defaultGlobals
      (exampleRequest "/go-utils" [("go-get", "1")] "" "example.org") goUtils
      (by decide) (by decide)).1,
   (packageHandler_vanity_go_import defaultGlobals
      (exampleRequest "/go-utils" [("go-get", "1")] "" "example.org") goUtils
      (by decide) (by decide)).2.2.2.1 (by decide) (by decide) (by decide) (by decide)⟩

/-- C1 fails as stated: with the forwarded host `a<b` the body of the answer to
`/go-utils?go-get=1` does not contain the host followed by the path; the escaper
has written `a&lt;b` instead. -/
theorem packageHandler_vanity_host_not_verbatim :
    findPackage defaultGlobals.packages "/go-utils" = some goUtils ∧
    getHost defaultGlobals (exampleRequest "/go-utils" [("go-get", "1")] "a<b" "localhost") = "a<b" ∧
    (packageHandler defaultGlobals
      (exampleRequest "/go-utils" [("go-get", "1")] "a<b" "localhost")).status = 200 ∧
    ¬ Contains (packageHandler defaultGlobals
      (exampleRequest "/go-utils" [("go-get", "1")] "a<b" "localhost")).body
      ("a<b" ++ "/go-utils") ∧
    Contains (packageHandler defaultGlobals
      (exampleRequest "/go-utils" [("go-get", "1")] "a<b" "localhost")).body
      "<meta name=\"go-import\" content=\"a&lt;b/go-utils git https://github.com/aykhans/go-utils\">" := by
  decide

/-- C7 (as amended).  For a request whose path is found in the registry as the
entry `pkg` and whose `go-get` parameter is `1`, the body has one `go-source` meta
tag, with the content
`E(<host><P> <R> <R>/tree/master{/dir} <R>/blob/master{/dir}/{file}#L{line})`,
where `E` is the attribute escaper of `html/template`; when the host, `P` and `R`
contain none of the characters the escaper replaces, the content is the text
itself.  The tokens `{/dir}`, `{file}` and `{line}` are in the body as they are
in the template.  Two consecutive left braces occur in the body only when they
occur in the host followed by `P`, in `R` or in `V`; with the compiled-in
registry, only when they occur in the host. -/
theorem packageHandler_vanity_go_source (g : Globals) (r : Request) (pkg : Package)
    (hfind : findPackage g.packages r.Path = some pkg)
    (hq : Values.Get r.Query "go-get" = "1") :
    Contains (packageHandler g r).body
      ("<meta name=\"go-source\" content=\"" ++
        attrEscaper (getHost g r ++ pkg.Path ++ " " ++ pkg.Repo ++ " " ++
          pkg.Repo ++ "/tree/master\x7b/dir\x7d " ++
          pkg.Repo ++ "/blob/master\x7b/dir\x7d/\x7bfile\x7d#L\x7bline\x7d") ++ "\">") ∧
    (htmlPlain (getHost g r) → htmlPlain pkg.Path → htmlPlain pkg.Repo →
      Contains (packageHandler g r).body
        ("<meta name=\"go-source\" content=\"" ++ getHost g r ++ pkg.Path ++ " " ++ pkg.Repo ++
          " " ++ pkg.Repo ++ "/tree/master\x7b/dir\x7d " ++
          pkg.Repo ++ "/blob/master\x7b/dir\x7d/\x7bfile\x7d#L\x7bline\x7d" ++ "\">")) ∧
    Contains (packageHandler g r).body "\x7b/dir\x7d" ∧
    Contains (packageHandler g r).body "\x7bfile\x7d" ∧
    Contains (packageHandler g r).body "\x7bline\x7d" ∧
    (¬ Contains (getHost g r ++ pkg.Path) "\x7b\x7b" → ¬ Contains pkg.Repo "\x7b\x7b" →
      ¬ Contains pkg.VCS "\x7b\x7b" → ¬ Contains (packageHandler g r).body "\x7b\x7b") ∧
    (g.packages = packages → ¬ Contains (getHost g r) "\x7b\x7b" →
      ¬ Contains (packageHandler g r).body "\x7b\x7b") ∧
    (∀ p ∈ packages, findPackage packages p.Path = some p ∧
      htmlPlain p.Path ∧ htmlPlain p.Repo) ∧
    occurrences (packageHandler g r).body "<meta name=\"go-source\"" = 1 := by
  have hbody := packageHandler_vanity g r pkg hfind hq
  have hsrc := vanityTemplate_go_source
    { Domain := getHost g r, Path := pkg.Path, Repo := pkg.Repo, VCS := pkg.VCS }
  have hno := vanityTemplate_no_action_open
    { Domain := getHost g r, Path := pkg.Path, Repo := pkg.Repo, VCS := pkg.VCS }
  have htail : ∀ t : String,
      Contains ("/blob/master\x7b/dir\x7d/\x7bfile\x7d#L\x7bline\x7d" : String) t →
      Contains (packageHandler g r).body t := by
    intro t ht
    rw [hbody]
    refine Contains.trans (Contains.trans ht ?_) hsrc
    simp only [String.append_assoc]
    iterate 9 apply Contains.skip
    exact Contains.left _ _
  refine ⟨?_, ?_, htail _ (by decide), htail _ (by decide),
    htail _ (by decide), by rw [hbody]; exact hno, ?_, by decide,
    by rw [hbody]; exact vanityTemplate_one_go_source _⟩
  · rw [hbody]
    simpa only [attrEscaper_append, attrEscaper_of_plain " " (by decide),
      attrEscaper_of_plain "/tree/master\x7b/dir\x7d " (by decide),
      attrEscaper_of_plain "/blob/master\x7b/dir\x7d/\x7bfile\x7d#L\x7bline\x7d" (by decide),
      String.append_assoc] using hsrc
  · intro hh hp hr
    rw [hbody]
    simpa only [attrEscaper_of_plain _ hh, attrEscaper_of_plain _ hp,
      attrEscaper_of_plain _ hr] using hsrc
  · intro hg hh
    rw [hbody]
    have hmem : pkg ∈ packages := hg ▸ (findPackage_eq_some _ _ _ hfind).1
    have hall : ∀ p ∈ packages, noActionOpen true p.Path.data = true ∧
        ¬ Contains p.Repo "\x7b\x7b" ∧ ¬ Contains p.VCS "\x7b\x7b" := by decide
    exact hno (noActionOpen_host_path _ _ hh (hall pkg hmem).1) (hall pkg hmem).2.1
      (hall pkg hmem).2.2

/-- Witness for C7: the request `/go-utils?go-get=1` for the host `example.org`. -/
theorem packageHandler_vanity_go_source_witness :
    Contains (packageHandler defaultGlobals
      (exampleRequest "/go-utils" [("go-get", "1")] "" "example.org")).body
      ("<meta name=\"go-source\" content=\"example.org/go-utils " ++
        "https://github.com/aykhans/go-utils " ++
        "https://github.com/aykhans/go-utils/tree/master\x7b/dir\x7d " ++
        "https://github.com/aykhans/go-utils/blob/master\x7b/dir\x7d/\x7bfile\x7d#L\x7bline\x7d\">") ∧
    ¬ Contains (packageHandler defaultGlobals
      (exampleRequest "/go-utils" [("go-get", "1")] "" "example.org")).body "\x7b\x7b" :=
  ⟨(packageHandler_vanity_go_source defaultGlobals
      (exampleRequest "/go-utils" [("go-get", "1")] "" "example.org") goUtils
      (by decide) (by decide)).2.1 (by decide) (by decide) (by decide),
   (packageHandler_vanity_go_source defaultGlobals
      (exampleRequest "/go-utils" [("go-get", "1")] "" "example.org") goUtils
      (by decide) (by decide)).2.2.2.2.2.2.1 rfl (by decide)⟩

/-- C7 fails as stated: with the forwarded host `a<{{b` the `go-source` content of
the answer to `/go-utils?go-get=1` does not begin with the host followed by the
path, and the body contains two consecutive left braces. -/
theorem packageHandler_vanity_go_source_not_verbatim :
    findPackage defaultGlobals.packages "/go-utils" = some goUtils ∧
    getHost defaultGlobals
      (exampleRequest "/go-utils" [("go-get", "1")] "a<\x7b\x7bb" "localhost") = "a<\x7b\x7bb" ∧
    ¬ Contains (packageHandler defaultGlobals
      (exampleRequest "/go-utils" [("go-get", "1")] "a<\x7b\x7bb" "localhost")).body
      ("<meta name=\"go-source\" content=\"" ++ "a<\x7b\x7bb" ++ "/go-utils") ∧
    Contains (packageHandler defaultGlobals
      (exampleRequest "/go-utils" [("go-get", "1")] "a<\x7b\x7bb" "localhost")).body
      "<meta name=\"go-source\" content=\"a&lt;\x7b\x7bb/go-utils " ∧
    Contains (packageHandler defaultGlobals
      (exampleRequest "/go-utils" [("go-get", "1")] "a<\x7b\x7bb" "localhost")).body
      "\x7b\x7b" := by
  decide

/-! ## The redirect page -/

theorem redirectTemplate_refresh (d : RedirectData) :
    Contains (redirectTemplate d)
      ("<meta http-equiv=\"refresh\" content=\"0; url=" ++ "https://pkg.go.dev/" ++
        attrEscaper (urlFilter d.Domain) ++ attrEscaper (urlFilter d.Path) ++ "\">") := by
  simp only [redirectTemplate, String.append_assoc]
  iterate 2 apply Contains.skip
  apply Contains.of_startsWith
  iterate 4 apply StartsWith.cons
  apply StartsWith.base

theorem redirectTemplate_anchor (d : RedirectData) :
    Contains (redirectTemplate d)
      ("<a href=\"" ++ "https://pkg.go.dev/" ++ attrEscaper (urlNormalizer d.Domain) ++
        attrEscaper (urlNormalizer d.Path) ++ "\">") := by
  simp only [redirectTemplate, String.append_assoc]
  iterate 8 apply Contains.skip
  apply Contains.of_startsWith
  iterate 4 apply StartsWith.cons
  apply StartsWith.base

theorem redirectTemplate_one_refresh (d : RedirectData) :
    occurrences (redirectTemplate d) "<meta http-equiv=\"refresh\"" = 1 := by
  have hd := countOcc_escaped ("<meta http-equiv=\"refresh\"" : String).data (by decide)
  rw [occurrences_eq]
  simp only [redirectTemplate, attrEscaper, htmlEscaper]
  repeat rw [String.data_append]
  repeat rw [List.append_assoc]
  rw [countOcc_static _ _ 0, countOcc_static _ _ 0, countOcc_static _ _ 1,
    countOcc_static _ _ 0, hd, hd, countOcc_static _ _ 0, countOcc_static _ _ 0,
    countOcc_static _ _ 0, countOcc_static _ _ 0, hd, hd, countOcc_static _ _ 0,
    countOcc_static _ _ 0, hd, hd, countOcc_static _ _ 0]
  · simp [countOcc]
  all_goals decide

theorem redirectTemplate_one_anchor (d : RedirectData) :
    occurrences (redirectTemplate d) "<a " = 1 := by
  have hd := countOcc_escaped ("<a " : String).data (by decide)
  rw [occurrences_eq]
  simp only [redirectTemplate, attrEscaper, htmlEscaper]
  repeat rw [String.data_append]
  repeat rw [List.append_assoc]
  rw [countOcc_static _ _ 0, countOcc_static _ _ 0, countOcc_static _ _ 0,
    countOcc_static _ _ 0, hd, hd, countOcc_static _ _ 0, countOcc_static _ _ 0,
    countOcc_static _ _ 1, countOcc_static _ _ 0, hd, hd, countOcc_static _ _ 0,
    countOcc_static _ _ 0, hd, hd, countOcc_static _ _ 0]
  · simp [countOcc]
  all_goals decide

theorem urlFilter_of_safe (s : String) (h : isSafeURL s = true) : urlFilter s = s := by
  simp [urlFilter, h]

theorem isSafeURL_of_no_colon (s : String) (h : ':' ∉ s.data) : isSafeURL s = true := by
  simp [isSafeURL, h]

theorem isSafeURL_of_rooted (s : String) (h : s.data.head? = some '/') : isSafeURL s = true := by
  obtain ⟨l⟩ := s
  cases l with
  | nil => simp at h
  | cons c cs =>
    simp only [List.head?_cons, Option.some.injEq] at h
    subst h
    have hne : ('/' : Char) ≠ ':' := by decide
    simp [isSafeURL, List.takeWhile_cons, hne]

/-- C2 (defect of the code).  The request `GET /go-utils` with the host
`localhost:8421`, the address the server listens on when no port is configured,
is answered with status 200 and a body whose one refresh directive has the
target `https://pkg.go.dev/#ZgotmplZ/go-utils`: the host has a colon with no
slash before it, so the URL filter of `html/template` has replaced it by its
marker `#ZgotmplZ`.  The target is not `https://pkg.go.dev/localhost:8421/go-utils`,
the base URL followed by the host and the path, which is what the anchor of the
same body links to. -/
theorem packageHandler_redirect_refresh_filtered :
    findPackage defaultGlobals.packages "/go-utils" = some goUtils ∧
    getHost defaultGlobals (exampleRequest "/go-utils" [] "" "localhost:8421") =
      "localhost:8421" ∧
    (packageHandler defaultGlobals (exampleRequest "/go-utils" [] "" "localhost:8421")).status
      = 200 ∧
    Contains (packageHandler defaultGlobals (exampleRequest "/go-utils" [] "" "localhost:8421")).body
      "<meta http-equiv=\"refresh\" content=\"0; url=https://pkg.go.dev/#ZgotmplZ/go-utils\">" ∧
    occurrences
      (packageHandler defaultGlobals (exampleRequest "/go-utils" [] "" "localhost:8421")).body
      "<meta http-equiv=\"refresh\"" = 1 ∧
    ¬ Contains (packageHandler defaultGlobals (exampleRequest "/go-utils" [] "" "localhost:8421")).body
      ("url=" ++ "https://pkg.go.dev/" ++ "localhost:8421" ++ "/go-utils") ∧
    Contains (packageHandler defaultGlobals (exampleRequest "/go-utils" [] "" "localhost:8421")).body
      "<a href=\"https://pkg.go.dev/localhost:8421/go-utils\">" := by
  decide

/-- C9 (as amended).  For a host `host` and a path `P` that the URL filter of
`html/template` lets through (a host without a colon and a path that begins
with a slash are such strings), the redirect page has one anchor and one
refresh directive.  The anchor has the target `E(https://pkg.go.dev/N(host)N(P))`
and the refresh directive the target `E(https://pkg.go.dev/<host><P>)`, where
`N` is the URL normaliser and `E` the attribute escaper of `html/template`.
When the host and `P` contain none of the characters the escaper replaces and
the normaliser leaves them unchanged, in particular when they consist of ASCII
letters, digits and the characters `- . _ ~ ! # $ * , / : ; = ? @ [ ]`, both
targets are `https://pkg.go.dev/<host><P>`; the path of every compiled-in entry
is such a string and passes the filter. -/
theorem redirectTemplate_anchor_and_refresh (host P : String)
    (hfh : isSafeURL host = true) (hfp : isSafeURL P = true) :
    Contains (redirectTemplate { Domain := host, Path := P })
      ("<a href=\"" ++
        attrEscaper ("https://pkg.go.dev/" ++ urlNormalizer host ++ urlNormalizer P) ++ "\">") ∧
    Contains (redirectTemplate { Domain := host, Path := P })
      ("<meta http-equiv=\"refresh\" content=\"0; url=" ++
        attrEscaper ("https://pkg.go.dev/" ++ host ++ P) ++ "\">") ∧
    (htmlPlain host → htmlPlain P → urlNormalizer host = host → urlNormalizer P = P →
      Contains (redirectTemplate { Domain := host, Path := P })
        ("<a href=\"" ++ "https://pkg.go.dev/" ++ host ++ P ++ "\">") ∧
      Contains (redirectTemplate { Domain := host, Path := P })
        ("<meta http-equiv=\"refresh\" content=\"0; url=" ++ "https://pkg.go.dev/" ++
          host ++ P ++ "\">")) ∧
    (urlSafe host → urlSafe P →
      Contains (redirectTemplate { Domain := host, Path := P })
        ("<a href=\"" ++ "https://pkg.go.dev/" ++ host ++ P ++ "\">") ∧
      Contains (redirectTemplate { Domain := host, Path := P })
        ("<meta http-equiv=\"refresh\" content=\"0; url=" ++ "https://pkg.go.dev/" ++
          host ++ P ++ "\">")) ∧
    (∀ p ∈ packages, urlSafe p.Path ∧ isSafeURL p.Path = true) ∧
    (∀ s : String, ':' ∉ s.data → isSafeURL s = true) ∧
    (∀ s : String, s.data.head? = some '/' → isSafeURL s = true) ∧
    occurrences (redirectTemplate { Domain := host, Path := P }) "<a " = 1 ∧
    occurrences (redirectTemplate { Domain := host, Path := P })
      "<meta http-equiv=\"refresh\"" = 1 := by
  have ha := redirectTemplate_anchor { Domain := host, Path := P }
  have hr := redirectTemplate_refresh { Domain := host, Path := P }
  simp only [urlFilter_of_safe _ hfh, urlFilter_of_safe _ hfp] at hr
  have hb := attrEscaper_of_plain "https://pkg.go.dev/" (by decide)
  have key : htmlPlain host → htmlPlain P → urlNormalizer host = host → urlNormalizer P = P →
      Contains (redirectTemplate { Domain := host, Path := P })
        ("<a href=\"" ++ "https://pkg.go.dev/" ++ host ++ P ++ "\">") ∧
      Contains (redirectTemplate { Domain := host, Path := P })
        ("<meta http-equiv=\"refresh\" content=\"0; url=" ++ "https://pkg.go.dev/" ++
          host ++ P ++ "\">") := by
    intro hh hp hnh hnp
    constructor
    · simpa only [hnh, hnp, attrEscaper_of_plain _ hh, attrEscaper_of_plain _ hp] using ha
    · simpa only [attrEscaper_of_plain _ hh, attrEscaper_of_plain _ hp] using hr
  exact ⟨by simpa only [attrEscaper_append, hb, String.append_assoc] using ha,
    by simpa only [attrEscaper_append, hb, String.append_assoc] using hr,
    key,
    fun hh hp => key (urlSafe_plain _ hh) (urlSafe_plain _ hp) (urlSafe_normal _ hh)
      (urlSafe_normal _ hp),
    by decide, isSafeURL_of_no_colon, isSafeURL_of_rooted,
    redirectTemplate_one_anchor _, redirectTemplate_one_refresh _⟩

/-- Witness for C9: the host `example.org` and the path `/go-utils`. -/
theorem redirectTemplate_anchor_and_refresh_witness :
    isSafeURL "example.org" = true ∧ isSafeURL "/go-utils" = true ∧
    Contains (redirectTemplate { Domain := "example.org", Path := "/go-utils" })
      "<a href=\"https://pkg.go.dev/example.org/go-utils\">" ∧
    Contains (redirectTemplate { Domain := "example.org", Path := "/go-utils" })
      "<meta http-equiv=\"refresh\" content=\"0; url=https://pkg.go.dev/example.org/go-utils\">" :=
  ⟨by decide, by decide,
    (redirectTemplate_anchor_and_refresh "example.org" "/go-utils" (by decide)
      (by decide)).2.2.2.1 (by decide) (by decide)⟩

/-- C9 fails as stated: for the host `a%b`, which the URL filter lets through,
the refresh directive has the target `https://pkg.go.dev/a%b/go-utils` and the
anchor has another one, in which the normaliser has written `%25` for the
percent sign. -/
theorem redirectTemplate_anchor_differs :
    isSafeURL "a%b" = true ∧
    Contains (redirectTemplate { Domain := "a%b", Path := "/go-utils" })
      "<meta http-equiv=\"refresh\" content=\"0; url=https://pkg.go.dev/a%b/go-utils\">" ∧
    Contains (redirectTemplate { Domain := "a%b", Path := "/go-utils" })
      "<a href=\"https://pkg.go.dev/a%25b/go-utils\">" ∧
    ¬ Contains (redirectTemplate { Domain := "a%b", Path := "/go-utils" })
      ("<a href=\"" ++ "https://pkg.go.dev/" ++ "a%b" ++ "/go-utils" ++ "\">") ∧
    occurrences (redirectTemplate { Domain := "a%b", Path := "/go-utils" }) "<a " = 1 := by
  decide

/-! ## Not found -/

/-- C3.  `packageHandler` answers with the not-found response of `http.NotFound`
exactly when no entry of the registry has the request path as its path, the
comparison being equality of strings; the query has no part in it.  No compiled-in
entry has the path `/go-utils/` or `/go-utils/x`. -/
theorem packageHandler_notFound_iff (g : Globals) (r : Request) :
    (packageHandler g r = NotFound ↔ ∀ p ∈ g.packages, p.Path ≠ r.Path) ∧
    ((packageHandler g r).status = 404 ↔ ∀ p ∈ g.packages, p.Path ≠ r.Path) ∧
    (∀ q : List (String × String), (∀ p ∈ g.packages, p.Path ≠ r.Path) →
      packageHandler g { r with Query := q } = NotFound) ∧
    (∀ (q : List (String × String)) (hdr : String → String) (host : String),
      packageHandler { g with packages := packages }
        { Path := "/go-utils/", Query := q, Header := hdr, Host := host } = NotFound ∧
      packageHandler { g with packages := packages }
        { Path := "/go-utils/x", Query := q, Header := hdr, Host := host } = NotFound) := by
  have key : ∀ (g : Globals) (r : Request),
      (∀ p ∈ g.packages, p.Path ≠ r.Path) → packageHandler g r = NotFound := by
    intro g r h
    have hnone := (findPackage_eq_none g.packages r.Path).2 h
    simp [packageHandler, hnone]
  have conv : (packageHandler g r).status = 404 → ∀ p ∈ g.packages, p.Path ≠ r.Path := by
    intro hs
    rw [← findPackage_eq_none]
    cases hfind : findPackage g.packages r.Path with
    | none => rfl
    | some pkg =>
      exfalso
      by_cases hq : Values.Get r.Query "go-get" = "1"
      · rw [packageHandler_vanity g r pkg hfind hq] at hs
        exact absurd (show (200 : Nat) = 404 from hs) (by decide)
      · rw [packageHandler_redirect g r pkg hfind hq] at hs
        exact absurd (show (200 : Nat) = 404 from hs) (by decide)
  refine ⟨⟨fun h => conv (by rw [h]; rfl), key g r⟩, ⟨conv, fun h => by rw [key g r h]; rfl⟩,
    fun q h => key g { r with Query := q } h, fun q hdr host => ⟨?_, ?_⟩⟩
  · exact key _ _ (show ∀ p ∈ packages, p.Path ≠ "/go-utils/" by decide)
  · exact key _ _ (show ∀ p ∈ packages, p.Path ≠ "/go-utils/x" by decide)

/-- Witness for C3: the request `/nonexistent?go-get=1` is answered with the
not-found response. -/
theorem packageHandler_notFound_iff_witness :
    packageHandler defaultGlobals
      (exampleRequest "/nonexistent" [("go-get", "1")] "" "example.org") = NotFound :=
  (packageHandler_notFound_iff defaultGlobals
    (exampleRequest "/nonexistent" [("go-get", "1")] "" "example.org")).1.2 (by decide)

/-! ## Host resolution -/

/-- C4.  `getHost` returns the override when it is not empty, whatever the
request; otherwise the value of the configured header when it is not empty;
otherwise the `Host` field of the request.  With the override `example.org`,
the header value `other.org` and the host `localhost` the result is
`example.org`; without override it is `other.org`; with neither it is
`localhost`.  The result is empty only when the three sources are empty. -/
theorem getHost_precedence (g : Globals) (r : Request) :
    (g.hostOverride ≠ "" → getHost g r = g.hostOverride) ∧
    (g.hostOverride = "" → r.Header g.hostHeader ≠ "" → getHost g r = r.Header g.hostHeader) ∧
    (g.hostOverride = "" → r.Header g.hostHeader = "" → getHost g r = r.Host) ∧
    (getHost g r = "" → g.hostOverride = "" ∧ r.Header g.hostHeader = "" ∧ r.Host = "") ∧
    getHost { g with hostOverride := "example.org" }
      { r with Header := fun k => if k = g.hostHeader then "other.org" else "", Host := "localhost" }
      = "example.org" ∧
    getHost { g with hostOverride := "" }
      { r with Header := fun k => if k = g.hostHeader then "other.org" else "", Host := "localhost" }
      = "other.org" ∧
    getHost { g with hostOverride := "" }
      { r with Header := fun _ => "", Host := "localhost" } = "localhost" := by
  refine ⟨fun h => by simp [getHost, h], fun h1 h2 => by simp [getHost, h1, h2],
    fun h1 h2 => by simp [getHost, h1, h2], ?_, by simp [getHost], by simp [getHost],
    by simp [getHost]⟩
  intro h
  unfold getHost at h
  split_ifs at h with h1 h2
  · exact absurd h h1
  · exact absurd h h2
  · exact ⟨not_not.mp h1, not_not.mp h2, h⟩

/-! ## The discovery flag -/

theorem vanityTemplate_ne_redirectTemplate (d : VanityData) (e : RedirectData) :
    vanityTemplate d ≠ redirectTemplate e := by
  intro h
  have h1 : StartsWith (vanityTemplate d)
      ("<!DOCTYPE html>\n<html>\n<head>\n    " ++ "<meta name=\"go-import\" content=\"") := by
    simp only [vanityTemplate, String.append_assoc]
    exact StartsWith.cons _ (StartsWith.base _ _)
  have h2 : StartsWith (redirectTemplate e)
      ("<!DOCTYPE html>\n<html>\n<head>\n" ++
        "    <link rel=\"icon\" href=\"https://pkg.go.dev/static/shared/icon/favicon.ico\">\n    ") := by
    simp only [redirectTemplate, String.append_assoc]
    exact StartsWith.cons _ (StartsWith.base _ _)
  rw [h] at h1
  have h3 := List.prefix_of_prefix_length_le h1 h2 (by decide)
  exact absurd h3 (by decide)

/-- C5.  For a request whose path is found in the registry as the entry `pkg`,
`packageHandler` renders the vanity page when the first value of the query
parameter `go-get` is the string `1`, and the redirect page otherwise: when the
parameter is absent, and when its value is another string, such as the empty
string, `0`, `01` or `true`. -/
theorem packageHandler_discovery_flag (g : Globals) (r : Request) (pkg : Package)
    (hfind : findPackage g.packages r.Path = some pkg) :
    (Values.Get r.Query "go-get" = "1" →
      packageHandler g r = htmlResponse (vanityTemplate
        { Domain := getHost g r, Path := pkg.Path, Repo := pkg.Repo, VCS := pkg.VCS })) ∧
    (Values.Get r.Query "go-get" ≠ "1" →
      packageHandler g r = htmlResponse (redirectTemplate
        { Domain := getHost g r, Path := pkg.Path })) ∧
    ((packageHandler g r).body = vanityTemplate
        { Domain := getHost g r, Path := pkg.Path, Repo := pkg.Repo, VCS := pkg.VCS } ↔
      Values.Get r.Query "go-get" = "1") ∧
    ((packageHandler g r).body = redirectTemplate { Domain := getHost g r, Path := pkg.Path } ↔
      Values.Get r.Query "go-get" ≠ "1") ∧
    ((∀ kv ∈ r.Query, kv.1 ≠ "go-get") → Values.Get r.Query "go-get" ≠ "1") ∧
    (∀ v ∈ ["", "0", "01", "true"], ∀ rest : List (String × String),
      Values.Get (("go-get", v) :: rest) "go-get" = v ∧ v ≠ "1") := by
  have hv := packageHandler_vanity g r pkg hfind
  have hr := packageHandler_redirect g r pkg hfind
  refine ⟨hv, hr, ⟨?_, fun hq => by rw [hv hq]; rfl⟩, ⟨?_, fun hq => by rw [hr hq]; rfl⟩, ?_, ?_⟩
  · intro hb
    by_contra hq
    rw [hr hq] at hb
    exact vanityTemplate_ne_redirectTemplate _ _ hb.symm
  · intro hb hq
    rw [hv hq] at hb
    exact vanityTemplate_ne_redirectTemplate _ _ hb
  · intro habs
    rw [Values.Get_absent _ _ habs]
    decide
  · intro v hmem rest
    refine ⟨by simp [Values.Get], ?_⟩
    revert v
    decide

/-- Witness for C5: the requests `/sarin?go-get=1` and `/sarin?go-get=true`. -/
theorem packageHandler_discovery_flag_witness :
    packageHandler defaultGlobals (exampleRequest "/sarin" [("go-get", "1")] "" "example.org") =
      htmlResponse (vanityTemplate
        { Domain := "example.org", Path := "/sarin", Repo := "https://github.com/aykhans/sarin",
          VCS := "git" }) ∧
    packageHandler defaultGlobals (exampleRequest "/sarin" [("go-get", "true")] "" "example.org") =
      htmlResponse (redirectTemplate { Domain := "example.org", Path := "/sarin" }) :=
  ⟨(packageHandler_discovery_flag defaultGlobals
      (exampleRequest "/sarin" [("go-get", "1")] "" "example.org")
      { Path := "/sarin", Repo := "https://github.com/aykhans/sarin", VCS := "git" }
      (by decide)).1 (by decide),
   (packageHandler_discovery_flag defaultGlobals
      (exampleRequest "/sarin" [("go-get", "true")] "" "example.org")
      { Path := "/sarin", Repo := "https://github.com/aykhans/sarin", VCS := "git" }
      (by decide)).2.1 (by decide)⟩

/-! ## The router -/

theorem patternMatches_root (path : String) :
    patternMatches "/\x7b$\x7d" path = decide (path = "/") := by
  have h1 : ("/\x7b$\x7d" : String) ≠ "/" := by decide
  have h2 : "\x7b$\x7d".data.isSuffixOf ("/\x7b$\x7d" : String).data = true := by decide
  have h3 : ("/\x7b$\x7d" : String).data.take (("/\x7b$\x7d" : String).data.length - 3) =
      ("/" : String).data := by decide
  unfold patternMatches
  rw [if_neg h1, if_pos h2, h3]
  by_cases h : path = "/"
  · subst h; decide
  · simp only [h, decide_False, beq_eq_false_iff_ne, ne_eq]
    intro hd
    exact h (String.ext hd)

theorem muxHandler_routes (path : String) :
    muxHandler routes path =
      if path = "/" then some Handler.homeHandler else some Handler.packageHandler := by
  have hs1 : isSubtree "/\x7b$\x7d" = false := by decide
  have hs2 : isSubtree "/" = true := by decide
  have hm : patternMatches "/" path = true := by simp [patternMatches]
  by_cases h : path = "/"
  · subst h; decide
  · simp [muxHandler, routes, List.find?, hs1, hs2, hm, patternMatches_root, h]

theorem pathClean_rooted (p : String) : StartsWith (pathClean p) "/" :=
  ⟨_, rfl⟩

theorem cleanPath_rooted (p : String) : StartsWith (cleanPath p) "/" := by
  have h : ∀ q : String, StartsWith
      (if q.data.getLast? = some '/' ∧ pathClean q ≠ "/" then pathClean q ++ "/"
        else pathClean q) "/" := by
    intro q
    split
    · exact ⟨_, rfl⟩
    · exact pathClean_rooted q
  unfold cleanPath
  split
  · decide
  · exact h _

theorem route_eq (path : String) :
    route path =
      if cleanPath path ≠ path then Dispatch.redirect (cleanPath path)
      else if path = "/" then Dispatch.handler Handler.homeHandler
      else Dispatch.handler Handler.packageHandler := by
  unfold route
  rw [muxHandler_routes]
  by_cases hc : cleanPath path ≠ path
  · rw [if_pos hc, if_pos hc]
  · rw [if_neg hc, if_neg hc]
    by_cases h : path = "/" <;> simp [h]

theorem homeHandler_run_response (g : Globals) (r : Request) :
    (homeHandler.run r (State.start g)).w.response = homeHandler g r := by
  simp [homeHandler.run, State.start, ResponseWriter.fresh, ResponseWriter.setHeader,
    ResponseWriter.write, ResponseWriter.writeHeader, ResponseWriter.response, homeHandler,
    htmlResponse]

theorem httpNotFound_response : (httpNotFound ResponseWriter.fresh).response = NotFound := by
  decide

theorem packageHandler_run_response (g : Globals) (r : Request) :
    (packageHandler.run r (State.start g)).w.response = packageHandler g r := by
  unfold packageHandler.run packageHandler
  simp only [State.start]
  split
  · exact httpNotFound_response
  · split <;>
      simp [ResponseWriter.fresh, ResponseWriter.setHeader, ResponseWriter.write,
        ResponseWriter.writeHeader, ResponseWriter.response, htmlResponse]

theorem homeHandler_run_vars (r : Request) (s : State) :
    (homeHandler.run r s).vars = s.vars := by
  simp [homeHandler.run]

theorem packageHandler_run_vars (r : Request) (s : State) :
    (packageHandler.run r s).vars = s.vars := by
  unfold packageHandler.run
  simp only []
  split
  · rfl
  · split <;> rfl

theorem serve_eq (g : Globals) (r : Request) :
    serve g r =
      (if cleanPath r.EscapedPath ≠ r.EscapedPath then
          Reply.redirect StatusTemporaryRedirect (cleanPath r.EscapedPath)
        else if r.EscapedPath = "/" then Reply.response (homeHandler g r)
        else Reply.response (packageHandler g r), g) := by
  unfold serve
  rw [route_eq]
  by_cases hc : cleanPath r.EscapedPath ≠ r.EscapedPath
  · simp only [if_pos hc]
  · simp only [if_neg hc]
    by_cases h : r.EscapedPath = "/"
    · rw [if_pos h, if_pos h]
      show (Reply.response (homeHandler.run r (State.start g)).w.response,
        (homeHandler.run r (State.start g)).vars) = _
      rw [homeHandler_run_response, homeHandler_run_vars]
      rfl
    · rw [if_neg h, if_neg h]
      show (Reply.response (packageHandler.run r (State.start g)).w.response,
        (packageHandler.run r (State.start g)).vars) = _
      rw [packageHandler_run_response, packageHandler_run_vars]
      rfl

/-- C6 (as amended).  The router sends a request to `homeHandler` exactly when its
path is the root path `/`.  It sends a request to `packageHandler` exactly when
the path is another path in clean form, one that `cleanPath` leaves unchanged;
`/go-utils`, `/nonexistent` and `/go-utils/` are such paths, and every such path
begins with a slash.  A request whose path is not in clean form, such as
`//go-utils`, `//`, `/./` or `/go-utils/..`, is sent to neither handler: the
router answers it with a redirect, of status 307, to the cleaned path.  The
path is the one the router reads, the escaped path of the request. -/
theorem route_home_iff_root (path : String) :
    (route path = Dispatch.handler Handler.homeHandler ↔ path = "/") ∧
    (route path = Dispatch.handler Handler.packageHandler ↔
      path ≠ "/" ∧ cleanPath path = path) ∧
    (route path = Dispatch.redirect (cleanPath path) ↔ cleanPath path ≠ path) ∧
    (cleanPath path ≠ path → ∀ h : Handler, route path ≠ Dispatch.handler h) ∧
    (cleanPath path = path → StartsWith path "/") ∧
    route path ≠ Dispatch.notFound ∧
    route "/go-utils" = Dispatch.handler Handler.packageHandler ∧
    route "/nonexistent" = Dispatch.handler Handler.packageHandler ∧
    route "/go-utils/" = Dispatch.handler Handler.packageHandler ∧
    route "//go-utils" = Dispatch.redirect "/go-utils" ∧
    route "//" = Dispatch.redirect "/" ∧
    route "/./" = Dispatch.redirect "/" ∧
    route "/go-utils/.." = Dispatch.redirect "/" ∧
    (∀ (g : Globals) (r : Request), r.EscapedPath = path →
      (serve g r).1 =
        if cleanPath path ≠ path then Reply.redirect 307 (cleanPath path)
        else if path = "/" then Reply.response (homeHandler g r)
        else Reply.response (packageHandler g r)) := by
  have hroot : cleanPath "/" = "/" := by decide
  refine ⟨?_, ?_, ?_, ?_, fun hc => hc ▸ cleanPath_rooted path, ?_, by decide, by decide,
    by decide, by decide, by decide, by decide, by decide, ?_⟩
  · rw [route_eq]
    constructor
    · intro h
      by_cases hc : cleanPath path ≠ path
      · rw [if_pos hc] at h; cases h
      · rw [if_neg hc] at h
        by_cases hp : path = "/"
        · exact hp
        · rw [if_neg hp] at h; cases h
    · intro h
      subst h
      rw [if_neg (by rw [hroot]; simp), if_pos rfl]
  · rw [route_eq]
    constructor
    · intro h
      by_cases hc : cleanPath path ≠ path
      · rw [if_pos hc] at h; cases h
      · rw [if_neg hc] at h
        by_cases hp : path = "/"
        · rw [if_pos hp] at h; cases h
        · exact ⟨hp, not_not.mp hc⟩
    · rintro ⟨hp, hc⟩
      rw [if_neg (not_not.mpr hc), if_neg hp]
  · rw [route_eq]
    constructor
    · intro h
      by_cases hc : cleanPath path ≠ path
      · exact hc
      · rw [if_neg hc] at h
        by_cases hp : path = "/"
        · rw [if_pos hp] at h; cases h
        · rw [if_neg hp] at h; cases h
    · intro hc
      rw [if_pos hc]
  · intro hc h
    rw [route_eq, if_pos hc]
    intro e
    cases e
  · rw [route_eq]
    by_cases hc : cleanPath path ≠ path
    · rw [if_pos hc]; intro e; cases e
    · rw [if_neg hc]
      by_cases hp : path = "/"
      · rw [if_pos hp]; intro e; cases e
      · rw [if_neg hp]; intro e; cases e
  · intro g r hr
    rw [serve_eq, hr]
    rfl

/-- C6 fails as stated: the path `//go-utils` is not the root path and the
request is not sent to `packageHandler`; the router answers it with a redirect
to `/go-utils`, of status 307, and runs no handler. -/
theorem route_unclean_not_packageHandler :
    ("//go-utils" : String) ≠ "/" ∧
    route "//go-utils" ≠ Dispatch.handler Handler.packageHandler ∧
    route "//go-utils" = Dispatch.redirect "/go-utils" ∧
    (serve defaultGlobals (exampleRequest "//go-utils" [] "" "example.org")).1 =
      Reply.redirect 307 "/go-utils" := by
  refine ⟨by decide, by decide, by decide, ?_⟩
  rw [serve_eq]
  decide

/-! ## Determinism -/

/-- C10.  Neither handler assigns to a package-level variable: after the
statements of `homeHandler` and of `packageHandler` have run, from any state, the
registry, the header name and the override are what they were, and so they are
after a request has been served.  The answer is a function of these variables
and the request: serving the same request again, also after any other request
has been served, gives the same answer, and a handler leaves the same status,
the same headers and the same body in a fresh response writer. -/
theorem serve_deterministic_stateless (g : Globals) (r : Request) :
    (∀ s : State, (homeHandler.run r s).vars = s.vars) ∧
    (∀ s : State, (packageHandler.run r s).vars = s.vars) ∧
    (serve g r).2 = g ∧
    (serve (serve g r).2 r).1 = (serve g r).1 ∧
    (∀ r1 : Request, (serve (serve g r1).2 r).1 = (serve g r).1) ∧
    (∀ r1 : Request,
      (homeHandler.run r (State.start (homeHandler.run r1 (State.start g)).vars)).w.response =
        (homeHandler.run r (State.start g)).w.response ∧
      (packageHandler.run r (State.start (packageHandler.run r1 (State.start g)).vars)).w.response =
        (packageHandler.run r (State.start g)).w.response ∧
      (homeHandler.run r (State.start (packageHandler.run r1 (State.start g)).vars)).w.response =
        (homeHandler.run r (State.start g)).w.response ∧
      (packageHandler.run r (State.start (homeHandler.run r1 (State.start g)).vars)).w.response =
        (packageHandler.run r (State.start g)).w.response) ∧
    (homeHandler.run r (State.start g)).w.response.status = (homeHandler g r).status ∧
    (homeHandler.run r (State.start g)).w.response.body = (homeHandler g r).body ∧
    (packageHandler.run r (State.start g)).w.response.status = (packageHandler g r).status ∧
    (packageHandler.run r (State.start g)).w.response.body = (packageHandler g r).body := by
  have hh := homeHandler_run_vars
  have hp := packageHandler_run_vars
  have h : ∀ r1 : Request, (serve g r1).2 = g := by
    intro r1
    unfold serve
    split
    · rfl
    · rfl
    · exact hh r1 (State.start g)
    · exact hp r1 (State.start g)
  refine ⟨hh r, hp r, h r, by rw [h r], fun r1 => by rw [h r1], fun r1 => ?_,
    by rw [homeHandler_run_response], by rw [homeHandler_run_response],
    by rw [packageHandler_run_response], by rw [packageHandler_run_response]⟩
  rw [hh r1, hp r1]
  exact ⟨rfl, rfl, rfl, rfl⟩

/-! ## The home page -/

theorem countOcc_homeBlock (domain : String) (index : Nat) (pkg : Package) (rest : List Char) :
    countOcc blockMarker.data ((homeBlock domain index pkg).data ++ rest) =
      1 + countOcc blockMarker.data rest := by
  have hd := countOcc_escaped blockMarker.data blockMarker_head
  simp only [homeBlock, attrEscaper, htmlEscaper, String.data_append, List.append_assoc]
  rw [countOcc_static _ blockOpen.data 1 _ (by decide), hd, hd,
    countOcc_static _ blockLinkText.data 0 _ (by decide), hd, hd,
    countOcc_static _ blockRepoOpen.data 0 _ (by decide), hd,
    countOcc_static _ blockRepoText.data 0 _ (by decide), hd,
    countOcc_static _ blockCmdOpen.data 0 _ (by decide), hd,
    countOcc_static _ blockCmdText.data 0 _ (by decide), hd, hd,
    countOcc_static _ blockButtonOpen.data 0 _ (by decide), hd,
    countOcc_static _ blockClose.data 0 _ (by decide)]
  omega

theorem countOcc_homeRange (domain : String) : ∀ (pkgs : List Package) (index : Nat)
    (rest : List Char),
    countOcc blockMarker.data ((homeRange domain index pkgs).data ++ rest) =
      pkgs.length + countOcc blockMarker.data rest
  | [], _, rest => by simp [homeRange]
  | pkg :: pkgs, index, rest => by
    simp only [homeRange, String.data_append, List.append_assoc, List.length_cons]
    rw [countOcc_homeBlock, countOcc_homeRange domain pkgs]
    omega

theorem homeRange_append (domain : String) (l1 l2 : List Package) (index : Nat) :
    homeRange domain index (l1 ++ l2) =
      homeRange domain index l1 ++ homeRange domain (index + l1.length) l2 := by
  induction l1 generalizing index with
  | nil =>
    apply String.ext
    simp [homeRange]
  | cons p l1 ih =>
    rw [List.cons_append, homeRange, homeRange, ih (index + 1), String.append_assoc,
      List.length_cons, Nat.add_assoc, Nat.add_comm 1]

theorem homeTemplate_count (domain : String) (pkgs : List Package) (count : Nat) :
    occurrences (homeTemplate { Domain := domain, Packages := pkgs, Count := count })
      blockMarker = pkgs.length := by
  have hd := countOcc_escaped blockMarker.data blockMarker_head
  rw [occurrences_eq]
  simp only [homeTemplate, rcdataEscaper, htmlEscaper]
  repeat rw [String.data_append]
  repeat rw [List.append_assoc]
  rw [countOcc_static _ homeHead.data 0 _ (by decide), hd,
    countOcc_static _ homeStyle.data 0 _ (by decide), countOcc_homeRange,
    countOcc_static _ homeFooter.data 0 _ (by decide),
    countOcc_static _ ("<p>Total packages: " : String).data 0 _ (by decide), hd,
    countOcc_static _ ("</p>" : String).data 0 _ (by decide),
    countOcc_static _ homeScript.data 0 _ (by decide)]
  simp [countOcc]

theorem homeTemplate_total (domain : String) (pkgs : List Package) (count : Nat) :
    Contains (homeTemplate { Domain := domain, Packages := pkgs, Count := count })
      ("<p>Total packages: " ++ toString count ++ "</p>") := by
  have h : htmlEscaper (formatInt count) = toString count :=
    htmlEscaper_of_plain _ (formatInt_plain count)
  simp only [homeTemplate, h, String.append_assoc]
  iterate 5 apply Contains.skip
  apply Contains.of_startsWith
  iterate 2 apply StartsWith.cons
  apply StartsWith.base

theorem homeTemplate_split (domain : String) (l1 l2 : List Package) (p : Package) (count : Nat) :
    ∃ pre post : String,
      homeTemplate { Domain := domain, Packages := l1 ++ p :: l2, Count := count } =
        pre ++ homeBlock domain l1.length p ++ post ∧
      occurrences pre blockMarker = l1.length ∧
      occurrences post blockMarker = l2.length := by
  refine ⟨homeHead ++ rcdataEscaper domain ++ homeStyle ++ homeRange domain 0 l1,
    homeRange domain (l1.length + 1) l2 ++ homeFooter ++ "<p>Total packages: " ++
      htmlEscaper (formatInt count) ++ "</p>" ++ homeScript, ?_, ?_, ?_⟩
  · simp only [homeTemplate, homeRange_append, homeRange, Nat.zero_add, String.append_assoc]
  · have hd := countOcc_escaped blockMarker.data blockMarker_head
    rw [occurrences_eq]
    simp only [rcdataEscaper]
    repeat rw [String.data_append]
    repeat rw [List.append_assoc]
    rw [countOcc_static _ homeHead.data 0 _ (by decide), hd,
      countOcc_static _ homeStyle.data 0 _ (by decide), countOcc_homeRange]
    simp [countOcc]
  · have hd := countOcc_escaped blockMarker.data blockMarker_head
    rw [occurrences_eq]
    simp only [htmlEscaper]
    repeat rw [String.data_append]
    repeat rw [List.append_assoc]
    rw [countOcc_homeRange, countOcc_static _ homeFooter.data 0 _ (by decide),
      countOcc_static _ ("<p>Total packages: " : String).data 0 _ (by decide), hd,
      countOcc_static _ ("</p>" : String).data 0 _ (by decide),
      countOcc_static _ homeScript.data 0 _ (by decide)]
    simp [countOcc]

theorem countOcc_homeRange_total (domain : String) : ∀ (pkgs : List Package) (index : Nat)
    (rest : List Char),
    countOcc totalMarker.data ((homeRange domain index pkgs).data ++ rest) =
      countOcc totalMarker.data rest
  | [], _, rest => by simp [homeRange]
  | pkg :: pkgs, index, rest => by
    have hd := countOcc_escaped totalMarker.data (by decide)
    simp only [homeRange, homeBlock, attrEscaper, htmlEscaper, String.data_append,
      List.append_assoc]
    rw [countOcc_static _ blockOpen.data 0 _ (by decide), hd, hd,
      countOcc_static _ blockLinkText.data 0 _ (by decide), hd, hd,
      countOcc_static _ blockRepoOpen.data 0 _ (by decide), hd,
      countOcc_static _ blockRepoText.data 0 _ (by decide), hd,
      countOcc_static _ blockCmdOpen.data 0 _ (by decide), hd,
      countOcc_static _ blockCmdText.data 0 _ (by decide), hd, hd,
      countOcc_static _ blockButtonOpen.data 0 _ (by decide), hd,
      countOcc_static _ blockClose.data 0 _ (by decide),
      countOcc_homeRange_total domain pkgs]
    omega

theorem homeTemplate_one_total (domain : String) (pkgs : List Package) (count : Nat) :
    occurrences (homeTemplate { Domain := domain, Packages := pkgs, Count := count })
      totalMarker = 1 := by
  have hd := countOcc_escaped totalMarker.data (by decide)
  rw [occurrences_eq]
  simp only [homeTemplate, rcdataEscaper, htmlEscaper]
  repeat rw [String.data_append]
  repeat rw [List.append_assoc]
  rw [countOcc_static _ homeHead.data 0 _ (by decide), hd,
    countOcc_static _ homeStyle.data 0 _ (by decide), countOcc_homeRange_total,
    countOcc_static _ homeFooter.data 0 _ (by decide),
    countOcc_static _ ("<p>Total packages: " : String).data 1 _ (by decide), hd,
    countOcc_static _ ("</p>" : String).data 0 _ (by decide),
    countOcc_static _ homeScript.data 0 _ (by decide)]
  simp [countOcc]

theorem Contains.of_suffix (s a rest b : String) (hs : a.data <:+ s.data)
    (hb : StartsWith rest b) : Contains (s ++ rest) (a ++ b) := by
  obtain ⟨t, ht⟩ := hs
  obtain ⟨u, hu⟩ := hb
  refine ⟨t, u, ?_⟩
  rw [String.data_append, String.data_append, ← ht, ← hu]
  simp [List.append_assoc]

theorem homeBlock_link (domain : String) (index : Nat) (pkg : Package) :
    StartsWith (homeBlock domain index pkg)
      ("\n    <div class=\"package\">\n        <a class=\"package-name\" href=\"https://pkg.go.dev/" ++
        attrEscaper (urlNormalizer domain) ++ attrEscaper (urlNormalizer pkg.Path) ++
        "\" target=\"_blank\">" ++ htmlEscaper domain ++ htmlEscaper pkg.Path) := by
  have e : blockOpen =
      "\n    <div class=\"package\">\n        <a class=\"package-name\" href=\"https://pkg.go.dev/" := by
    decide
  simp only [homeBlock, e, blockLinkText, String.append_assoc]
  iterate 5 apply StartsWith.cons
  apply StartsWith.base

theorem homeBlock_source (domain : String) (index : Nat) (pkg : Package) :
    Contains (homeBlock domain index pkg)
      ("Source: <a href=\"" ++ attrEscaper (urlNormalizer (urlFilter pkg.Repo)) ++
        "\" target=\"_blank\">" ++ htmlEscaper pkg.Repo) := by
  simp only [homeBlock, blockRepoText, String.append_assoc]
  iterate 6 apply Contains.skip
  apply Contains.of_suffix _ _ _ _ (by decide)
  iterate 2 apply StartsWith.cons
  apply StartsWith.base

theorem homeBlock_cmd (domain : String) (index : Nat) (pkg : Package) :
    Contains (homeBlock domain index pkg)
      ("<div class=\"install-cmd\" id=\"cmd-" ++ toString index ++ "\">go get " ++
        htmlEscaper domain ++ htmlEscaper pkg.Path ++
        "</div>\n            <button class=\"copy-btn\" onclick=\"copyToClipboard('cmd-" ++
        toString index ++ "', this)\">") := by
  have e : blockButtonOpen =
      "</div>\n            <button class=\"copy-btn\" onclick=\"copyToClipboard('cmd-" := by
    decide
  have hi : attrEscaper (formatInt index) = toString index :=
    attrEscaper_of_plain _ (formatInt_plain index)
  have hc : StartsWith blockClose "', this)\">" := by decide
  simp only [homeBlock, e, hi, blockCmdText, String.append_assoc]
  iterate 10 apply Contains.skip
  apply Contains.of_suffix _ _ _ _ (by decide)
  iterate 6 apply StartsWith.cons
  exact hc

/-- C8.  For every registry and every request, `homeHandler` answers with status
200 and a body in which the opening tag of a package block occurs exactly as
many times as the registry has entries, and which shows one paragraph
`Total packages: N`, with that number `N`.  Every entry of the registry has its
block in the body: the block is preceded by as many blocks as there are entries
before the entry in the registry and followed by as many blocks as there are
entries after it; it contains the opening tag once, at its beginning, followed
by the link to `https://pkg.go.dev/<host><path>` with the label `<host><path>`,
and it contains the link to the repository of the entry and the command
`go get <host><path>`, numbered by the position of the entry in the registry
(the URLs are normalised and every value is escaped for HTML).  With the
compiled-in registry the number is 2. -/
theorem homeHandler_blocks_and_count (g : Globals) (r : Request) :
    (homeHandler g r).status = 200 ∧
    occurrences (homeHandler g r).body blockMarker = g.packages.length ∧
    Contains (homeHandler g r).body
      ("<p>Total packages: " ++ toString g.packages.length ++ "</p>") ∧
    (∀ (l1 l2 : List Package) (p : Package), g.packages = l1 ++ p :: l2 →
      ∃ pre block post : String,
        (homeHandler g r).body = pre ++ block ++ post ∧
        occurrences pre blockMarker = l1.length ∧
        occurrences post blockMarker = l2.length ∧
        occurrences block blockMarker = 1 ∧
        block = homeBlock (getHost g r) l1.length p ∧
        StartsWith block
          ("\n    <div class=\"package\">\n        <a class=\"package-name\" href=\"https://pkg.go.dev/" ++
            attrEscaper (urlNormalizer (getHost g r)) ++ attrEscaper (urlNormalizer p.Path) ++
            "\" target=\"_blank\">" ++ htmlEscaper (getHost g r) ++ htmlEscaper p.Path) ∧
        Contains block
          ("Source: <a href=\"" ++ attrEscaper (urlNormalizer (urlFilter p.Repo)) ++
            "\" target=\"_blank\">" ++ htmlEscaper p.Repo) ∧
        Contains block
          ("<div class=\"install-cmd\" id=\"cmd-" ++ toString l1.length ++ "\">go get " ++
            htmlEscaper (getHost g r) ++ htmlEscaper p.Path ++
            "</div>\n            <button class=\"copy-btn\" onclick=\"copyToClipboard('cmd-" ++
            toString l1.length ++ "', this)\">")) ∧
    (g.packages = packages →
      occurrences (homeHandler g r).body blockMarker = 2 ∧
      Contains (homeHandler g r).body "<p>Total packages: 2</p>") ∧
    occurrences (homeHandler g r).body totalMarker = 1 := by
  have hc := homeTemplate_count (getHost g r) g.packages g.packages.length
  have ht := homeTemplate_total (getHost g r) g.packages g.packages.length
  refine ⟨rfl, hc, ht, ?_, ?_, homeTemplate_one_total _ _ _⟩
  · intro l1 l2 p hsplit
    obtain ⟨pre, post, hbody, hpre, hpost⟩ :=
      homeTemplate_split (getHost g r) l1 l2 p g.packages.length
    rw [← hsplit] at hbody
    refine ⟨pre, homeBlock (getHost g r) l1.length p, post, hbody, hpre, hpost, ?_, rfl,
      homeBlock_link _ _ _, homeBlock_source _ _ _, homeBlock_cmd _ _ _⟩
    rw [occurrences_eq, countOcc_homeBlock]
    simp [countOcc]
  · intro hg
    have hlen : g.packages.length = 2 := by rw [hg]; rfl
    constructor
    · rw [← hlen]; exact hc
    · have e : ("<p>Total packages: " ++ toString g.packages.length ++ "</p>" : String) =
          "<p>Total packages: 2</p>" := by rw [hlen]; decide
      rw [e] at ht
      exact ht

/-- Witness for C8: the home page of the compiled-in registry for the host
`example.org` has two package blocks and shows the count 2.  The block of
`/go-utils` comes first, with no block before it and one after it, and shows the
command `go get example.org/go-utils` with the number 0; the block of `/sarin`
comes second, with one block before it and none after it, and shows the command
`go get example.org/sarin` with the number 1. -/
theorem homeHandler_blocks_and_count_witness :
    occurrences (homeHandler defaultGlobals (exampleRequest "/" [] "" "example.org")).body
      blockMarker = 2 ∧
    Contains (homeHandler defaultGlobals (exampleRequest "/" [] "" "example.org")).body
      "<p>Total packages: 2</p>" ∧
    (∃ pre block post : String,
      (homeHandler defaultGlobals (exampleRequest "/" [] "" "example.org")).body =
        pre ++ block ++ post ∧
      occurrences pre blockMarker = 0 ∧ occurrences post blockMarker = 1 ∧
      occurrences block blockMarker = 1 ∧
      StartsWith block
        "\n    <div class=\"package\">\n        <a class=\"package-name\" href=\"https://pkg.go.dev/example.org/go-utils\" target=\"_blank\">example.org/go-utils" ∧
      Contains block
        "Source: <a href=\"https://github.com/aykhans/go-utils\" target=\"_blank\">https://github.com/aykhans/go-utils" ∧
      Contains block
        "<div class=\"install-cmd\" id=\"cmd-0\">go get example.org/go-utils</div>\n            <button class=\"copy-btn\" onclick=\"copyToClipboard('cmd-0', this)\">") ∧
    (∃ pre block post : String,
      (homeHandler defaultGlobals (exampleRequest "/" [] "" "example.org")).body =
        pre ++ block ++ post ∧
      occurrences pre blockMarker = 1 ∧ occurrences post blockMarker = 0 ∧
      occurrences block blockMarker = 1 ∧
      StartsWith block
        "\n    <div class=\"package\">\n        <a class=\"package-name\" href=\"https://pkg.go.dev/example.org/sarin\" target=\"_blank\">example.org/sarin" ∧
      Contains block
        "Source: <a href=\"https://github.com/aykhans/sarin\" target=\"_blank\">https://github.com/aykhans/sarin" ∧
      Contains block
        "<div class=\"install-cmd\" id=\"cmd-1\">go get example.org/sarin</div>\n            <button class=\"copy-btn\" onclick=\"copyToClipboard('cmd-1', this)\">") := by
  have h := homeHandler_blocks_and_count defaultGlobals (exampleRequest "/" [] "" "example.org")
  refine ⟨(h.2.2.2.2.1 rfl).1, (h.2.2.2.2.1 rfl).2, ?_, ?_⟩
  · obtain ⟨pre, block, post, h1, h2, h3, h4, _, h6, h7, h8⟩ :=
      h.2.2.2.1 [] [{ Path := "/sarin", Repo := "https://github.com/aykhans/sarin", VCS := "git" }]
        goUtils rfl
    refine ⟨pre, block, post, h1, h2, h3, h4, ?_, ?_, ?_⟩
    · have e : ("\n    <div class=\"package\">\n        <a class=\"package-name\" href=\"https://pkg.go.dev/" ++
            attrEscaper (urlNormalizer (getHost defaultGlobals
              (exampleRequest "/" [] "" "example.org"))) ++
            attrEscaper (urlNormalizer goUtils.Path) ++
            "\" target=\"_blank\">" ++
            htmlEscaper (getHost defaultGlobals (exampleRequest "/" [] "" "example.org")) ++
            htmlEscaper goUtils.Path : String) =
          "\n    <div class=\"package\">\n        <a class=\"package-name\" href=\"https://pkg.go.dev/example.org/go-utils\" target=\"_blank\">example.org/go-utils" := by
        decide
      rw [← e]; exact h6
    · have e : ("Source: <a href=\"" ++ attrEscaper (urlNormalizer (urlFilter goUtils.Repo)) ++
            "\" target=\"_blank\">" ++ htmlEscaper goUtils.Repo : String) =
          "Source: <a href=\"https://github.com/aykhans/go-utils\" target=\"_blank\">https://github.com/aykhans/go-utils" := by
        decide
      rw [← e]; exact h7
    · have e : ("<div class=\"install-cmd\" id=\"cmd-" ++
            toString ([] : List Package).length ++ "\">go get " ++
            htmlEscaper (getHost defaultGlobals (exampleRequest "/" [] "" "example.org")) ++
            htmlEscaper goUtils.Path ++
            "</div>\n            <button class=\"copy-btn\" onclick=\"copyToClipboard('cmd-" ++
            toString ([] : List Package).length ++ "', this)\">" : String) =
          "<div class=\"install-cmd\" id=\"cmd-0\">go get example.org/go-utils</div>\n            <button class=\"copy-btn\" onclick=\"copyToClipboard('cmd-0', this)\">" := by
        decide
      rw [← e]; exact h8
  · obtain ⟨pre, block, post, h1, h2, h3, h4, _, h6, h7, h8⟩ :=
      h.2.2.2.1 [goUtils] []
        { Path := "/sarin", Repo := "https://github.com/aykhans/sarin", VCS := "git" } rfl
    refine ⟨pre, block, post, h1, h2, h3, h4, ?_, ?_, ?_⟩
    · have e : ("\n    <div class=\"package\">\n        <a class=\"package-name\" href=\"https://pkg.go.dev/" ++
            attrEscaper (urlNormalizer (getHost defaultGlobals
              (exampleRequest "/" [] "" "example.org"))) ++
            attrEscaper (urlNormalizer "/sarin") ++
            "\" target=\"_blank\">" ++
            htmlEscaper (getHost defaultGlobals (exampleRequest "/" [] "" "example.org")) ++
            htmlEscaper "/sarin" : String) =
          "\n    <div class=\"package\">\n        <a class=\"package-name\" href=\"https://pkg.go.dev/example.org/sarin\" target=\"_blank\">example.org/sarin" := by
        decide
      rw [← e]; exact h6
    · have e : ("Source: <a href=\"" ++
            attrEscaper (urlNormalizer (urlFilter "https://github.com/aykhans/sarin")) ++
            "\" target=\"_blank\">" ++ htmlEscaper "https://github.com/aykhans/sarin" : String) =
          "Source: <a href=\"https://github.com/aykhans/sarin\" target=\"_blank\">https://github.com/aykhans/sarin" := by
        decide
      rw [← e]; exact h7
    · have e : ("<div class=\"install-cmd\" id=\"cmd-" ++
            toString [goUtils].length ++ "\">go get " ++
            htmlEscaper (getHost defaultGlobals (exampleRequest "/" [] "" "example.org")) ++
            htmlEscaper "/sarin" ++
            "</div>\n            <button class=\"copy-btn\" onclick=\"copyToClipboard('cmd-" ++
            toString [goUtils].length ++ "', this)\">" : String) =
          "<div class=\"install-cmd\" id=\"cmd-1\">go get example.org/sarin</div>\n            <button class=\"copy-btn\" onclick=\"copyToClipboard('cmd-1', this)\">" := by
        decide
      rw [← e]; exact h8

end GopkgProxy
